import Mathlib

/-!
Verification of the Research & Intelligence Pipeline
(content_intelligence_engine), a shallow embedding in Lean 4.

Python strings are modelled as `List Char` (`Str`); Python floats are
modelled as exact rationals (`ℚ`); Python dicts with a fixed key set are
modelled as structures; `None`/missing keys as `Option`; exceptions as
`Except` with an explicit error value.  Network and LLM effects are
modelled as oracle inputs.  Each definition mirrors the function of the
same name in the repository sources (files and line numbers are cited).
-/

/-- Python strings, modelled as lists of characters. -/
abbrev Str := List Char

/-- Coerce a Lean string literal into the `Str` model. -/
def strOf (s : String) : Str := s.data

/-- Python whitespace, as used by `str.split()`, `str.strip()` and `\s`. -/
def isPyWs (c : Char) : Bool :=
  c = ' ' || c = '\t' || c = '\n' || c = '\r' || c = '\x0b' || c = '\x0c'

/-- ASCII-lowering of one character (`str.lower()` restricted to ASCII, which
is all the code's fixed vocabularies use). -/
def lowerChar (c : Char) : Char :=
  if 'A' ≤ c ∧ c ≤ 'Z' then Char.ofNat (c.toNat + 32) else c

/-- Python `s.lower()`. -/
def pyLower (s : Str) : Str := s.map lowerChar

/-- Python `s.strip()`: drop whitespace from both ends. -/
def pyStrip (s : Str) : Str :=
  ((s.dropWhile isPyWs).reverse.dropWhile isPyWs).reverse

/-- Python `s.rstrip(ch)` for a single strip character: drop every trailing
occurrence of `ch`. -/
def pyRstripChar (ch : Char) (s : Str) : Str :=
  (s.reverse.dropWhile (· = ch)).reverse

/-- Python `s.lstrip(cs)`: drop leading characters belonging to `cs`. -/
def pyLstripSet (cs : List Char) (s : Str) : Str :=
  s.dropWhile (fun c => cs.contains c)

/-- Worker for splitting on a character class: accumulates the current word
(reversed) and emits maximal runs of non-class characters. -/
def splitChars (p : Char → Bool) (acc : Str) : Str → List Str
  | [] => if acc.isEmpty then [] else [acc.reverse]
  | c :: t =>
    if p c then
      if acc.isEmpty then splitChars p [] t
      else acc.reverse :: splitChars p [] t
    else splitChars p (c :: acc) t

/-- Python `s.split()` with no argument: split on whitespace runs, dropping
empty fields. -/
def pySplitWs (s : Str) : List Str := splitChars isPyWs [] s

/-- Regex word characters (`\w`, ASCII restriction). -/
def isWordChar (c : Char) : Bool := c.isAlphanum || c = '_'

/-- Maximal runs of word characters, used to decide `\b`-delimited matches. -/
def wordTokens (s : Str) : List Str := splitChars (fun c => !isWordChar c) [] s

/-- Substring containment, i.e. Python's `needle in hay`. -/
def containsSub (hay needle : Str) : Bool :=
  match hay with
  | [] => needle.isEmpty
  | _ :: t => needle.isPrefixOf hay || containsSub t needle

/-- Round-half-to-even on rationals (the tie rule of Python's `round`). -/
def halfEven (q : ℚ) : ℤ :=
  if q - q.floor < 1/2 then q.floor
  else if 1/2 < q - q.floor then q.floor + 1
  else if q.floor % 2 = 0 then q.floor else q.floor + 1

/-- Python `round(q, nd)`, with floats idealised as exact rationals. -/
def pyRound (q : ℚ) (nd : ℕ) : ℚ :=
  (halfEven (q * 10 ^ nd) : ℚ) / 10 ^ nd

/-- Decimal rendering of a natural number, for formatted log messages. -/
def natStr (n : ℕ) : Str := (Nat.repr n).data

/-!
Research engine (core/research_engine.py).
-/

/-- One research result dict with the six keys produced by the pipeline and
persisted by the cache (`research_engine.py`, `_save_cache` lines 127-140). -/
structure ResearchItem where
  title : Str
  snippet : Str
  url : Str
  content : Str
  score : ℕ
  summary : Str
deriving DecidableEq, Repr

/-- The power-word vocabulary (`research_engine.py` lines 40-45). -/
def POWER_WORDS : List Str :=
  [strOf "ultimate", strOf "secret", strOf "proven", strOf "explosive",
   strOf "mistake", strOf "breakdown", strOf "step-by-step", strOf "hack",
   strOf "strategy", strOf "deadly", strOf "hidden", strOf "crucial",
   strOf "essential", strOf "surprising", strOf "shocking", strOf "powerful",
   strOf "critical", strOf "guaranteed", strOf "instant", strOf "exclusive",
   strOf "revolutionary", strOf "incredible"]

/-- Heuristic engagement score (`research_engine.py` lines 402-415):
sequential accumulation exactly as in the source. -/
def compute_heuristic_score (title snippet : Str) : ℕ :=
  let combined := pyLower (title ++ [' '] ++ snippet)
  let score := 0
  let score := if combined.any Char.isDigit then score + 2 else score
  let score := if combined.contains '?' then score + 1 else score
  let score := if (pySplitWs title).length < 12 then score + 1 else score
  POWER_WORDS.foldl (fun sc w => if containsSub combined w then sc + 1 else sc) score

/-- Content length gate constants (`research_engine.py` lines 35-36). -/
def MAX_CONTENT_LENGTH : ℕ := 1200

def MIN_CONTENT_LENGTH : ℕ := 300

/-- Index of the last occurrence of `c` in `s` (Python `s.rfind(c)`, with
`none` for the sentinel -1). -/
def rfindIdx : Str → Char → Option ℕ
  | [], _ => none
  | a :: t, c =>
    match rfindIdx t c with
    | some i => some (i + 1)
    | none => if a = c then some 0 else none

/-- The length gate at the end of `extract_page_content`
(`research_engine.py` lines 362-371), as a function of the cleaned text:
discard short text, truncate long text at 1200 characters, cutting back to
the last sentence boundary when it lies past the midpoint.  The condition
`lp > MAX_CONTENT_LENGTH * 0.5` on the integer index `lp` is written as
`2 * lp > MAX_CONTENT_LENGTH`, which is equivalent because halves are exact
in floating point. -/
def lengthGate (cleaned : Str) : Str :=
  if cleaned.length < MIN_CONTENT_LENGTH then []
  else if cleaned.length > MAX_CONTENT_LENGTH then
    let trunc := cleaned.take MAX_CONTENT_LENGTH
    match rfindIdx trunc '.' with
    | some lp => if 2 * lp > MAX_CONTENT_LENGTH then trunc.take (lp + 1) else trunc
    | none => trunc
  else cleaned

/-- Cache freshness window in hours (`research_engine.py` line 38). -/
def CACHE_MAX_AGE_HOURS : ℚ := 24

/-- One on-disk cache entry as observed at load time: its age in hours
(derived from the file modification time) and its parsed JSON payload,
`none` standing for an unreadable or corrupt file (`OSError` /
`json.JSONDecodeError` / payload that is not a list of result dicts). -/
structure CacheEntry where
  age_hours : ℚ
  parsed : Option (List ResearchItem)
deriving DecidableEq, Repr

/-- Cache load (`research_engine.py`, `_load_cache` lines 111-124).  A
missing file (`none`), a stale file, or a corrupt file all yield `[]`. -/
def loadCacheEntry (entry : Option CacheEntry) : List ResearchItem :=
  match entry with
  | none => []
  | some e =>
    if e.age_hours > CACHE_MAX_AGE_HOURS then []
    else
      match e.parsed with
      | none => []
      | some data => if data ≠ [] then data else []

/-- The serialisable projection built by `_save_cache`
(`research_engine.py` lines 132-136): the six keys with their defaults. -/
def serializeItem (d : ResearchItem) : ResearchItem :=
  { title := d.title, snippet := d.snippet, url := d.url,
    content := d.content, score := d.score, summary := d.summary }

/-- The cache entry written by `_save_cache` (`research_engine.py` lines
127-140), observed when its age has reached `h` hours. -/
def savedEntryAt (data : List ResearchItem) (h : ℚ) : CacheEntry :=
  { age_hours := h, parsed := some (data.map serializeItem) }

/-- URL normalisation used by de-duplication (`research_engine.py` line 460):
strip trailing slashes, then lower-case. -/
def normUrl (u : Str) : Str := pyLower (pyRstripChar '/' u)

/-- Worker for `_dedup`, carrying the `seen` set of normalised URLs. -/
def dedupGo (seen : List Str) : List ResearchItem → List ResearchItem
  | [] => []
  | r :: rs =>
    if normUrl r.url ∈ seen then dedupGo seen rs
    else r :: dedupGo (normUrl r.url :: seen) rs

/-- De-duplication by normalised URL, first occurrence wins
(`research_engine.py`, `_dedup` lines 456-464). -/
def dedup (results : List ResearchItem) : List ResearchItem := dedupGo [] results

/-- The deduplicate-then-cap step of `research_niche`
(`research_engine.py` lines 524-529): the final list keeps at most 12
entries. -/
def researchDedupCap (results : List ResearchItem) : List ResearchItem :=
  (dedup results).take 12

/-!
Stable insertion sort, modelling Python's stable `list.sort(key=...)`.
-/

/-- Insert `x` in front of the first element `y` with `le x y`; with a total
preorder `le` this places `x` before later key-equal elements, matching the
stability of Python's sort. -/
def insertLe {α : Type} (le : α → α → Bool) (x : α) : List α → List α
  | [] => [x]
  | y :: ys => if le x y then x :: y :: ys else y :: insertLe le x ys

/-- Stable insertion sort by the boolean preorder `le`. -/
def sortLe {α : Type} (le : α → α → Bool) : List α → List α
  | [] => []
  | x :: xs => insertLe le x (sortLe le xs)

/-!
Gap detection (core/intelligence_engine.py, `_keyword_gaps` lines 159-178).
-/

/-- One gap-detection result dict. -/
structure GapResult where
  subdomain : Str
  similarity : ℚ
  is_gap : Bool
  method : Str
deriving DecidableEq, Repr

/-- One item's contribution to the gap corpus: lower-cased concatenation of
title, snippet, content and summary (`intelligence_engine.py` lines
161-165). -/
def itemCorpusPart (s : ResearchItem) : Str :=
  pyLower (s.title ++ strOf " " ++ s.snippet ++ strOf " " ++
           s.content ++ strOf " " ++ s.summary)

/-- The concatenated corpus: space-joined item contributions. -/
def buildGapCorpus (research_data : List ResearchItem) : Str :=
  List.intercalate (strOf " ") (research_data.map itemCorpusPart)

/-- The gap-detection entry for one subdomain (`intelligence_engine.py`
lines 167-176): of the subdomain's words longer than 2 characters, the
fraction found as substrings of the corpus; `similarity` is that coverage
rounded to 3 decimals, `is_gap` compares the unrounded coverage with 0.3. -/
def gapEntry (corpus : Str) (sd : Str) : GapResult :=
  let words := ((pySplitWs sd).filter (fun w => w.length > 2)).map pyLower
  let nMatched := (words.filter (containsSub corpus)).length
  let cov : ℚ := if words.length = 0 then 0 else (nMatched : ℚ) / words.length
  { subdomain := sd, similarity := pyRound cov 3,
    is_gap := decide (cov < 3/10), method := strOf "keyword" }

/-- The sort key order of `_keyword_gaps` (`intelligence_engine.py` line
177): lexicographic on `(not is_gap, similarity)`, so gaps come first and
each group is ordered by ascending similarity. -/
def gapLe (a b : GapResult) : Bool :=
  if a.is_gap = b.is_gap then decide (a.similarity ≤ b.similarity)
  else a.is_gap

/-- Keyword-based gap detection (`intelligence_engine.py`, `_keyword_gaps`
lines 159-178): one entry per subdomain, sorted stably by
`(not is_gap, similarity)`. -/
def keywordGaps (research_data : List ResearchItem) (subdomains : List Str) :
    List GapResult :=
  sortLe gapLe (subdomains.map (gapEntry (buildGapCorpus research_data)))

/-- Gap detection entry point (`intelligence_engine.py`, `detect_gaps` lines
136-156): logs the method notice and always runs keyword detection, since
embeddings are disabled. -/
def detect_gaps (research_data : List ResearchItem) (subdomains : List Str)
    (log : List Str) : List GapResult × List Str :=
  (keywordGaps research_data subdomains,
   log ++ [strOf "Using keyword-based gap detection (embeddings disabled)."])

/-!
Structural saturation (core/intelligence_engine.py,
`analyze_structural_saturation` lines 74-133).  The three title-level
regexes and the content-level regex are compiled to explicit matchers.
Greedy consumption of `\s*`, `\s+`, `\d+`, `##?` and `\.?` is equivalent to
the backtracking search here because in every pattern the following token
can never start with a character of the repeated class.
-/

/-- One element of a compiled regex sequence: a literal, a single character
of a class, or a non-empty maximal run of a class. -/
inductive RTok
  | lit (w : Str)
  | cls (p : Char → Bool)
  | many1 (p : Char → Bool)

/-- Match a compiled sequence at the head of `s`, returning the rest. -/
def matchSeq : List RTok → Str → Option Str
  | [], s => some s
  | RTok.lit w :: ts, s =>
    if w.isPrefixOf s then matchSeq ts (s.drop w.length) else none
  | RTok.cls p :: ts, s =>
    match s with
    | c :: rest => if p c then matchSeq ts rest else none
    | [] => none
  | RTok.many1 p :: ts, s =>
    let run := s.takeWhile p
    if run.isEmpty then none else matchSeq ts (s.drop run.length)

/-- Word-boundary admissibility on the left: start of string or a non-word
previous character (all patterns used here begin with a word character). -/
def okBefore : Option Char → Bool
  | none => true
  | some c => !isWordChar c

/-- Word-boundary admissibility on the right: end of string or a non-word
next character (all patterns used here end with a word character). -/
def okAfter : Str → Bool
  | [] => true
  | c :: _ => !isWordChar c

/-- Does one of the `\b`-delimited alternatives match right here, the left
boundary being judged from the previous character? -/
def hitBdry (alts : List (List RTok)) (prev : Option Char) (s : Str) : Bool :=
  okBefore prev &&
    alts.any (fun alt =>
      match matchSeq alt s with
      | some rest => okAfter rest
      | none => false)

/-- Search for any of the `\b`-delimited alternatives anywhere in `s`,
tracking the previous character for the left boundary. -/
def searchBdry (alts : List (List RTok)) : Option Char → Str → Bool
  | prev, [] => hitBdry alts prev []
  | prev, c :: t => hitBdry alts prev (c :: t) || searchBdry alts (some c) t

/-- Search for any of the alternatives anywhere in `s`, with no boundary
requirements. -/
def searchAnywhere (alts : List (List RTok)) : Str → Bool
  | [] => alts.any (fun alt => (matchSeq alt []).isSome)
  | c :: t =>
    alts.any (fun alt => (matchSeq alt (c :: t)).isSome) || searchAnywhere alts t

/-- Match the pattern right after each newline of `s`. -/
def anchorHits (pat : List RTok) : Str → Bool
  | [] => false
  | c :: t => (c = '\n' && (matchSeq pat t).isSome) || anchorHits pat t

/-- Match the pattern at the start of the string and after each newline
(the `re.M` anchor `^`). -/
def searchLineStart (pat : List RTok) (s : Str) : Bool :=
  (matchSeq pat s).isSome || anchorHits pat s

/-- Title-level list pattern `\b(\d+|top|best|list|ultimate)\b`
(`intelligence_engine.py` line 82), applied case-insensitively: some maximal
word token is all digits or one of the four literals. -/
def listReMatch (t : Str) : Bool :=
  (wordTokens (pyLower t)).any (fun tok =>
    tok = strOf "top" || tok = strOf "best" || tok = strOf "list" ||
    tok = strOf "ultimate" || (!tok.isEmpty && tok.all Char.isDigit))

/-- Title-level guide pattern `\b(guide|how[\s-]to|tutorial|step[\s-]by)\b`
(`intelligence_engine.py` line 83), case-insensitive. -/
def guideReMatch (t : Str) : Bool :=
  searchBdry
    [[RTok.lit (strOf "guide")],
     [RTok.lit (strOf "how"), RTok.cls (fun c => isPyWs c || c = '-'),
      RTok.lit (strOf "to")],
     [RTok.lit (strOf "tutorial")],
     [RTok.lit (strOf "step"), RTok.cls (fun c => isPyWs c || c = '-'),
      RTok.lit (strOf "by")]]
    none (pyLower t)

/-- Title-level comparison pattern `\b(vs\.?|versus|compar|alternative)\b`
(`intelligence_engine.py` line 84), case-insensitive.  The `vs\.?` branch
matches either with the right boundary directly after `vs`, or consuming
the dot with a word character following it. -/
def vsHit (prev : Option Char) (s : Str) : Bool :=
  okBefore prev &&
    match matchSeq [RTok.lit (strOf "vs")] s with
    | some rest =>
      okAfter rest ||
      (match rest with
       | '.' :: c :: _ => isWordChar c
       | _ => false)
    | none => false

/-- Scan for the `vs\.?` branch over all positions. -/
def vsSearch : Option Char → Str → Bool
  | prev, [] => vsHit prev []
  | prev, c :: t => vsHit prev (c :: t) || vsSearch (some c) t

/-- Full comparison matcher for `compare_re`. -/
def compareReMatch (t : Str) : Bool :=
  searchBdry
    [[RTok.lit (strOf "versus")], [RTok.lit (strOf "compar")],
     [RTok.lit (strOf "alternative")]]
    none (pyLower t) ||
  vsSearch none (pyLower t)

/-- Content-level list pattern
`(^\d+\.|top\s+\d+|best\s+\d+|in\s+this\s+guide|here\s+are\s+\d+|step\s+\d+|#\d+)`
with `re.I | re.M` (`intelligence_engine.py` lines 94-97). -/
def contentListMatch (txt : Str) : Bool :=
  let l := pyLower txt
  searchLineStart [RTok.many1 Char.isDigit, RTok.lit (strOf ".")] l ||
  searchAnywhere
    [[RTok.lit (strOf "top"), RTok.many1 isPyWs, RTok.many1 Char.isDigit],
     [RTok.lit (strOf "best"), RTok.many1 isPyWs, RTok.many1 Char.isDigit],
     [RTok.lit (strOf "in"), RTok.many1 isPyWs, RTok.lit (strOf "this"),
      RTok.many1 isPyWs, RTok.lit (strOf "guide")],
     [RTok.lit (strOf "here"), RTok.many1 isPyWs, RTok.lit (strOf "are"),
      RTok.many1 isPyWs, RTok.many1 Char.isDigit],
     [RTok.lit (strOf "step"), RTok.many1 isPyWs, RTok.many1 Char.isDigit],
     [RTok.lit (strOf "#"), RTok.many1 Char.isDigit]] l

/-- The saturation report dict (`intelligence_engine.py` lines 127-133).
The diagnostic `top_bigrams` list is purely informational and is not
modelled; the zero-corpus early return (lines 77-80) lacks the
`content_list_count` key, modelled here as 0. -/
structure SatReport where
  list_count : ℕ
  guide_count : ℕ
  comparison_count : ℕ
  total : ℕ
  list_percentage : ℚ
  content_list_count : ℕ
  content_list_percentage : ℚ
  dominant_format : String
  is_saturated : Bool
deriving DecidableEq, Repr

/-- The per-item body text used at content level
(`intelligence_engine.py` line 101): `summary or content`. -/
def bodyText (s : ResearchItem) : Str :=
  if s.summary.isEmpty then s.content else s.summary

/-- Structural saturation analysis (`intelligence_engine.py`,
`analyze_structural_saturation` lines 74-133), with floats idealised as
rationals. -/
def analyze_structural_saturation (research_data : List ResearchItem) :
    SatReport :=
  let total := research_data.length
  if total = 0 then
    { list_count := 0, guide_count := 0, comparison_count := 0, total := 0,
      list_percentage := 0, content_list_count := 0,
      content_list_percentage := 0, dominant_format := "Unknown",
      is_saturated := false }
  else
    let titleOf := fun (s : ResearchItem) => s.title ++ strOf " " ++ s.snippet
    let lc := (research_data.filter (fun s => listReMatch (titleOf s))).length
    let gc := (research_data.filter (fun s => guideReMatch (titleOf s))).length
    let cc := (research_data.filter (fun s => compareReMatch (titleOf s))).length
    let samples := (research_data.map bodyText).filter (fun t => !t.isEmpty)
    let samples_text := samples.length
    let clc := (samples.filter contentListMatch).length
    let t_pct : ℚ := ((lc : ℚ) / total) * 100
    let c_pct : ℚ := if samples_text = 0 then 0 else ((clc : ℚ) / samples_text) * 100
    let combined_pct := max t_pct c_pct
    let dominant :=
      if combined_pct > 50 then "Listicle saturation"
      else if (gc : ℚ) > (total : ℚ) * (4/10) then "Guide/tutorial heavy"
      else if (cc : ℚ) > (total : ℚ) * (3/10) then "Comparison heavy"
      else "Mixed formats"
    { list_count := lc, guide_count := gc, comparison_count := cc,
      total := total, list_percentage := pyRound t_pct 1,
      content_list_count := clc, content_list_percentage := pyRound c_pct 1,
      dominant_format := dominant, is_saturated := decide (combined_pct > 50) }

/-!
Strategy engine (core/strategy_engine.py).
-/

/-- The six header patterns of `_split_sections` (`strategy_engine.py`
lines 159-166): section key, section number digit, and header phrase
(stored lower-cased; the search is case-insensitive). -/
def headerPatterns : List (String × Char × Str) :=
  [("positioning", '1', strOf "strategic positioning"),
   ("pillars", '2', strOf "content pillars"),
   ("hooks", '3', strOf "optimized hooks"),
   ("scripts", '4', strOf "short-form content scripts"),
   ("ctas", '5', strOf "cta variations"),
   ("calendar", '6', strOf "7-day content calendar")]

/-- Consume the `##?` part of the optional header prefix (greedy, which
agrees with backtracking because a second `#` can never be consumed by the
following `\s*` or digit). -/
def dropHash2 : Str → Option Str
  | '#' :: '#' :: r => some r
  | '#' :: r => some r
  | _ => none

/-- Consume the optional header prefix `##?\s*d\.?\s*` at the head of `s`,
returning the rest. -/
def dropPrefixPat (digit : Char) (s : Str) : Option Str :=
  match dropHash2 s with
  | none => none
  | some r1 =>
    let r2 := r1.dropWhile isPyWs
    match r2 with
    | [] => none
    | c :: r3 =>
      if c = digit then
        let r4 := match r3 with
          | '.' :: rr => rr
          | _ => r3
        some (r4.dropWhile isPyWs)
      else none

/-- Match `(?:##?\s*d\.?\s*)?PHRASE` at the head of `s` (both already
lower-cased), returning the number of characters from the match start to
the end of the phrase, i.e. `m.end() - m.start()` with `m.end()` right
after the phrase. -/
def matchHeaderAt (digit : Char) (phrase : Str) (s : Str) : Option ℕ :=
  match dropPrefixPat digit s with
  | some r =>
    if phrase.isPrefixOf r then some ((s.length - r.length) + phrase.length)
    else if phrase.isPrefixOf s then some phrase.length
    else none
  | none =>
    if phrase.isPrefixOf s then some phrase.length else none

/-- Leftmost search for the header pattern (`re.search`): first position
where it matches, returning `(m.start(), m.end())`. -/
def searchHeader (digit : Char) (phrase : Str) : ℕ → Str → Option (ℕ × ℕ)
  | i, [] =>
    match matchHeaderAt digit phrase [] with
    | some consumed => some (i, i + consumed)
    | none => none
  | i, c :: t =>
    match matchHeaderAt digit phrase (c :: t) with
    | some consumed => some (i, i + consumed)
    | none => searchHeader digit phrase (i + 1) t

/-- The located boundaries `(m.start(), key, m.end())` in pattern order
(`strategy_engine.py` lines 168-172). -/
def findBoundaries (raw : Str) : List (ℕ × String × ℕ) :=
  headerPatterns.filterMap
    (fun pat =>
      (searchHeader pat.2.1 pat.2.2 0 (pyLower raw)).map
        (fun se => (se.1, pat.1, se.2)))

/-- Python slice `raw[a:b]`. -/
def sliceStr (s : Str) (a b : ℕ) : Str := (s.take b).drop a

/-- The cleanup applied to each section body (`strategy_engine.py` line
181): `.strip().lstrip(":-").strip()`. -/
def cleanupSection (s : Str) : Str :=
  pyStrip (pyLstripSet [':', '-'] (pyStrip s))

/-- Assemble the section dict from the sorted boundary list
(`strategy_engine.py` lines 178-182): each section's body runs from its
header end to the next boundary's start, or to the end of the text. -/
def buildSections (raw : Str) : List (ℕ × String × ℕ) → List (String × Str)
  | [] => []
  | b :: rest =>
    let endIdx := match rest with
      | b2 :: _ => b2.1
      | [] => raw.length
    (b.2.1, cleanupSection (sliceStr raw b.2.2 endIdx)) :: buildSections raw rest

/-- Section splitting (`strategy_engine.py`, `_split_sections` lines
158-183): with fewer than 3 located headers the whole text is the single
`full_strategy` section, otherwise the boundaries are sorted by start and
sliced. -/
def split_sections (raw : Str) : List (String × Str) :=
  let boundaries := findBoundaries raw
  if boundaries.length < 3 then [("full_strategy", raw)]
  else
    buildSections raw (sortLe (fun a b => decide (a.1 ≤ b.1)) boundaries)

/-- Error classes raised by this code base. -/
inductive EType
  | connectionError
  | runtimeError
  | valueError
deriving DecidableEq, Repr

/-- A raised Python exception: its class and its message string.  This is
all the information a `raise` in this code propagates to the caller. -/
structure PyError where
  etype : EType
  msg : Str
deriving DecidableEq, Repr

/-- The dict returned by `generate_strategy` (`strategy_engine.py` lines
59-63): the split sections plus the `_raw` (final text) and `_pass1`
(draft) entries, modelled as named fields. -/
structure StrategyOut where
  sections : List (String × Str)
  rawFinal : Str
  pass1Draft : Str
deriving DecidableEq, Repr

/-- Two-pass strategy generation (`strategy_engine.py`, `generate_strategy`
lines 12-63), as a function of the two backend call outcomes.  Pass 1
raises `RuntimeError` when missing or under 100 stripped characters; the
pass-2 condition `len(refined.strip()) > len(raw) * 0.5` is written
`2 * (pyStrip refined).length > raw.length`, equivalent on integers since
halves are exact in floating point.  Backend errors (`ConnectionError`,
`RuntimeError`) in pass 2 fall back to the draft.  The prompt texts do not
influence control flow and are not modelled. -/
def generate_strategy : Except PyError Str → Except PyError Str →
    List Str → Except PyError StrategyOut × List Str
  | Except.error e, _, log =>
    (Except.error e, log ++ [strOf "Strategy Pass 1: Generating..."])
  | Except.ok raw, pass2, log =>
    if raw.isEmpty || (pyStrip raw).length < 100 then
      (Except.error ⟨EType.runtimeError,
         strOf "Strategy Pass 1 insufficient output."⟩,
       log ++ [strOf "Strategy Pass 1: Generating..."])
    else
      let log2 := log ++ [strOf "Strategy Pass 1: Generating..."] ++
        [strOf "Pass 1: " ++ natStr raw.length ++ strOf " chars."] ++
        [strOf "Strategy Pass 2: Critique and refine..."]
      let sel : Str × List Str :=
        match pass2 with
        | Except.ok refined =>
          if !refined.isEmpty && 2 * (pyStrip refined).length > raw.length then
            (refined, log2 ++ [strOf "Pass 2: " ++ natStr refined.length ++
               strOf " chars (refined)."])
          else (raw, log2 ++ [strOf "Pass 2 too short. Using Pass 1."])
        | Except.error _ =>
          (raw, log2 ++ [strOf "Pass 2 failed. Using Pass 1."])
      (Except.ok { sections := split_sections sel.1, rawFinal := sel.1,
                   pass1Draft := raw }, sel.2)

/-!
Remaining pure stage functions used by the orchestrator
(core/research_engine.py and core/intelligence_engine.py).
-/

/-- The research-engine stop-word set (`research_engine.py` lines 47-67). -/
def STOPWORDS : List Str :=
  [strOf "the", strOf "a", strOf "an", strOf "and", strOf "or", strOf "but",
   strOf "in", strOf "on", strOf "at", strOf "to", strOf "for", strOf "of",
   strOf "with", strOf "by", strOf "from", strOf "is", strOf "it",
   strOf "its", strOf "this", strOf "that", strOf "are", strOf "was",
   strOf "were", strOf "be", strOf "been", strOf "being", strOf "have",
   strOf "has", strOf "had", strOf "do", strOf "does", strOf "did",
   strOf "will", strOf "would", strOf "could", strOf "should", strOf "may",
   strOf "might", strOf "can", strOf "shall", strOf "not", strOf "no",
   strOf "nor", strOf "so", strOf "if", strOf "then", strOf "than",
   strOf "too", strOf "very", strOf "just", strOf "about", strOf "above",
   strOf "after", strOf "again", strOf "all", strOf "also", strOf "am",
   strOf "as", strOf "any", strOf "because", strOf "before", strOf "below",
   strOf "between", strOf "both", strOf "each", strOf "few", strOf "get",
   strOf "got", strOf "he", strOf "her", strOf "here", strOf "him",
   strOf "his", strOf "how", strOf "i", strOf "into", strOf "me",
   strOf "more", strOf "most", strOf "my", strOf "new", strOf "now",
   strOf "only", strOf "other", strOf "our", strOf "out", strOf "over",
   strOf "own", strOf "same", strOf "she", strOf "some", strOf "such",
   strOf "them", strOf "there", strOf "these", strOf "they", strOf "those",
   strOf "through", strOf "under", strOf "up", strOf "us", strOf "we",
   strOf "what", strOf "when", strOf "where", strOf "which", strOf "while",
   strOf "who", strOf "whom", strOf "why", strOf "you", strOf "your",
   strOf "one", strOf "two", strOf "use", strOf "used", strOf "using",
   strOf "make", strOf "like", strOf "know", strOf "see", strOf "way",
   strOf "even", strOf "well", strOf "back", strOf "much", strOf "many",
   strOf "still", strOf "come", strOf "take", strOf "say", strOf "said",
   strOf "need", strOf "look", strOf "think", strOf "want", strOf "give",
   strOf "first", strOf "last", strOf "long", strOf "great", strOf "little",
   strOf "right", strOf "good", strOf "big", strOf "high",
   strOf "different", strOf "small", strOf "large", strOf "next",
   strOf "early", strOf "young", strOf "important", strOf "let",
   strOf "thing", strOf "things", strOf "go", strOf "going", strOf "went",
   strOf "really", strOf "read", strOf "best", strOf "top", strOf "help",
   strOf "try", strOf "every", strOf "keep", strOf "work",
   strOf "working", strOf "put", strOf "end", strOf "start", strOf "turn"]

/-- The substitution `re.sub(r'[^a-z\s]', ' ', ...)`: any character that is
neither a lower-case letter nor whitespace becomes a space. -/
def keepAzWs (c : Char) : Char :=
  if ('a' ≤ c ∧ c ≤ 'z') ∨ isPyWs c = true then c else ' '

/-- Word counts in first-occurrence order (the iteration order of a Python
`Counter` built by counting a list). -/
def firstOccCounts (ws : List Str) : List (Str × ℕ) :=
  ws.foldl
    (fun acc w =>
      if acc.any (fun p => p.1 = w) then
        acc.map (fun p => if p.1 = w then (p.1, p.2 + 1) else p)
      else acc ++ [(w, 1)])
    []

/-- `Counter.most_common(n)`: stable sort by descending count (ties keep
first-occurrence order), truncated to `n`. -/
def mostCommon (n : ℕ) (ws : List Str) : List (Str × ℕ) :=
  (sortLe (fun a b => decide (b.2 ≤ a.2)) (firstOccCounts ws)).take n

/-- Keyword frequency analysis (`research_engine.py`,
`analyze_keyword_frequency` lines 418-427) with the default `top_n = 15`. -/
def analyze_keyword_frequency (research_data : List ResearchItem) :
    List (Str × ℕ) :=
  let texts := research_data.flatMap
    (fun s =>
      (if s.title.isEmpty then [] else [s.title]) ++
      (if s.snippet.isEmpty then [] else [s.snippet]) ++
      (if s.content.isEmpty then [] else [s.content]))
  let combined := (pyLower (List.intercalate (strOf " ") texts)).map keepAzWs
  let words := (pySplitWs combined).filter
    (fun w => !STOPWORDS.contains w && w.length > 2)
  mostCommon 15 words

/-- The niche to keyword-category mapping (`research_engine.py` lines
69-78), in insertion order. -/
def NICHE_KEYWORD_MAP : List (String × List Str) :=
  [("founder",
    [strOf "founder", strOf "startup", strOf "indie", strOf "entrepreneur",
     strOf "bootstrapped", strOf "solopreneur"]),
   ("startup",
    [strOf "startup", strOf "founder", strOf "venture", strOf "mvp",
     strOf "fundraising", strOf "entrepreneur"]),
   ("indie",
    [strOf "indie", strOf "hacker", strOf "bootstrapped",
     strOf "solopreneur", strOf "maker", strOf "builder"]),
   ("entrepreneur",
    [strOf "entrepreneur", strOf "founder", strOf "business",
     strOf "startup", strOf "venture"]),
   ("creator",
    [strOf "creator", strOf "content", strOf "audience", strOf "brand",
     strOf "influencer"]),
   ("marketer",
    [strOf "marketer", strOf "marketing", strOf "growth", strOf "funnel",
     strOf "conversion"]),
   ("developer",
    [strOf "developer", strOf "dev", strOf "code", strOf "programming",
     strOf "software"]),
   ("freelancer",
    [strOf "freelancer", strOf "freelance", strOf "client",
     strOf "contract", strOf "agency"])]

/-- Niche category detection (`research_engine.py`, `_detect_niche_category`
lines 143-148): first category whose keyword list hits the lowered niche by
substring, else the empty string. -/
def detect_niche_category (niche : Str) : String :=
  let nicheL := pyLower niche
  match NICHE_KEYWORD_MAP.find? (fun ck => ck.2.any (containsSub nicheL)) with
  | some ck => ck.1
  | none => ""

/-- Alignment keyword derivation (`research_engine.py`,
`_alignment_keywords` lines 151-155). -/
def alignment_keywords (niche : Str) : List Str :=
  let cat := detect_niche_category niche
  match NICHE_KEYWORD_MAP.find? (fun ck => ck.1 = cat) with
  | some ck => ck.2
  | none =>
    (pySplitWs (pyLower niche)).filter
      (fun w => w.length > 3 && !STOPWORDS.contains w)

/-- Python `repr` of a list of strings without quotes inside, as formatted
into the drift warning. -/
def pyReprStrList (ws : List Str) : Str :=
  strOf "[" ++
  List.intercalate (strOf ", ") (ws.map (fun w => strOf "'" ++ w ++ strOf "'")) ++
  strOf "]"

/-- The niche-alignment report dict. -/
structure NicheAlignment where
  aligned_count : ℕ
  total_count : ℕ
  alignment_ratio : ℚ
  drift_detected : Bool
  drift_warning : Option Str
  alignment_keywords : List Str
deriving DecidableEq, Repr

/-- Niche-alignment check (`research_engine.py`, `check_niche_alignment`
lines 158-181).  The drift flag uses the unrounded ratio; the stored ratio
is rounded to 2 decimals. -/
def check_niche_alignment (research_data : List ResearchItem) (niche : Str) :
    NicheAlignment :=
  let kws := alignment_keywords niche
  if kws.isEmpty then
    { aligned_count := research_data.length,
      total_count := research_data.length, alignment_ratio := 1,
      drift_detected := false, drift_warning := none,
      alignment_keywords := [] }
  else
    let aligned := (research_data.filter
      (fun s =>
        let combined := pyLower (s.title ++ strOf " " ++ s.snippet ++
                                 strOf " " ++ s.content)
        kws.any (containsSub combined))).length
    let total := research_data.length
    let ratio : ℚ := if total > 0 then (aligned : ℚ) / total else 0
    let drift := decide (ratio < 4/10)
    let warning : Option Str :=
      if drift then
        some (strOf "Drift: only " ++ natStr aligned ++ strOf "/" ++
              natStr total ++ strOf " results match niche keywords " ++
              pyReprStrList (kws.take 5) ++ strOf ".")
      else none
    { aligned_count := aligned, total_count := total,
      alignment_ratio := pyRound ratio 2, drift_detected := drift,
      drift_warning := warning, alignment_keywords := kws.take 5 }

/-- The signal-strength report dict. -/
structure Signal where
  total_urls : ℕ
  urls_with_content : ℕ
  urls_with_summaries : ℕ
  total_content_chars : ℕ
  avg_heuristic_score : ℚ
  confidence : String
deriving DecidableEq, Repr

/-- Signal assessment (`intelligence_engine.py`, `assess_signal` lines
202-224). -/
def assess_signal (research_data : List ResearchItem) : Signal :=
  let total := research_data.length
  let with_content :=
    (research_data.filter (fun r => !(pyStrip r.content).isEmpty)).length
  let with_summary :=
    (research_data.filter (fun r => !(pyStrip r.summary).isEmpty)).length
  let total_chars := (research_data.map (fun r => r.content.length)).sum
  let avg : ℚ :=
    if research_data.length = 0 then 0
    else ((research_data.map (fun r => r.score)).sum : ℚ) / research_data.length
  let conf :=
    if total_chars > 5000 then "HIGH"
    else if total_chars > 2000 then "MEDIUM"
    else "LOW"
  { total_urls := total, urls_with_content := with_content,
    urls_with_summaries := with_summary, total_content_chars := total_chars,
    avg_heuristic_score := pyRound avg 1, confidence := conf }

/-- The fallback subdomain list (`intelligence_engine.py`,
`_fallback_subdomains` lines 64-71). -/
def fallback_subdomains : List Str :=
  [strOf "getting started", strOf "common mistakes",
   strOf "advanced strategies", strOf "tools and resources",
   strOf "case studies", strOf "industry trends", strOf "monetization",
   strOf "audience building", strOf "content creation",
   strOf "community building", strOf "automation",
   strOf "analytics and metrics", strOf "collaboration",
   strOf "personal branding", strOf "scaling operations"]

/-- Dynamic subdomain generation (`intelligence_engine.py`,
`generate_dynamic_subdomains` lines 37-61) as a function of the
`send_prompt_for_list` outcome: filter the returned lines, fall back to the
fixed list when the backend fails or yields fewer than 5 usable phrases. -/
def generate_dynamic_subdomains (call : Except PyError (List Str))
    (log : List Str) : List Str × List Str :=
  match call with
  | Except.error e =>
    (fallback_subdomains,
     log ++ [strOf "Subdomain generation failed: " ++ e.msg.take 60 ++
             strOf ". Using fallback."])
  | Except.ok items =>
    let cleaned :=
      ((items.filter
          (fun i =>
            !(pyStrip i).isEmpty && 2 ≤ (pySplitWs i).length &&
            (pySplitWs i).length ≤ 8 && i.length < 100)).map
        (fun i => pyRstripChar '.' (pyStrip i))).take 15
    if cleaned.length < 5 then
      (fallback_subdomains,
       log ++ [strOf "LLM returned few subdomains. Using fallback."])
    else
      (cleaned,
       log ++ [strOf "Generated " ++ natStr cleaned.length ++
               strOf " dynamic subdomains."])

/-- One competitive-intensity probe result dict. -/
structure CompIntensity where
  gap : Str
  intensity_level : String
  result_count : ℤ
  unique_domains : ℕ
deriving DecidableEq, Repr

/-- Competitive checks for the top gaps (`intelligence_engine.py`,
`run_competitive_checks` lines 181-199); the per-gap network probe
`check_competitive_intensity` is an oracle. -/
def run_competitive_checks (gap_results : List GapResult)
    (probe : Str → CompIntensity) (log : List Str) :
    List CompIntensity × List Str :=
  let gaps := gap_results.filter (fun g => g.is_gap)
  if gaps.isEmpty then ([], log)
  else
    let check_n := min 5 gaps.length
    let log := log ++ [strOf "Checking competitive intensity for " ++
                       natStr check_n ++ strOf " gaps."]
    ((gaps.take check_n).map (fun g => probe g.subdomain), log)

/-- Intelligence extraction (`intelligence_engine.py`, `extract_insights`
lines 262-309) as a function of the two `send_prompt` outcomes; a backend
error propagates.  The prompt texts do not influence control flow and are
not modelled. -/
def extract_insights (call1 call2 : Except PyError Str) (log : List Str) :
    Except PyError Str × List Str :=
  let log := log ++ [strOf "Intelligence Call 1: Hooks, structure, CTAs"]
  match call1 with
  | Except.error e => (Except.error e, log)
  | Except.ok i1 =>
    let log := log ++ [strOf "Intelligence Call 2: Tone, themes, positioning"]
    match call2 with
    | Except.error e => (Except.error e, log)
    | Except.ok i2 =>
      (Except.ok (strOf "=== STRUCTURAL ANALYSIS ===" ++ strOf "\n\n" ++ i1 ++
                  strOf "\n\n" ++ strOf "=== THEMATIC ANALYSIS ===" ++
                  strOf "\n\n" ++ i2), log)

/-!
Pipeline orchestrator (core/pipeline.py, `run_pipeline` lines 53-243).
-/

/-- The client profile sub-dict of the result. -/
structure ClientProfile where
  niche : Str
  platform : Str
  target_audience : Str
  business_goal : Str
deriving DecidableEq, Repr

/-- One entry of `result["research_samples"]` (`pipeline.py` lines
221-228). -/
structure Sample where
  title : Str
  snippet : Str
  url : Str
  score : ℕ
  has_content : Bool
  has_summary : Bool
deriving DecidableEq, Repr

/-- The `result["meta"]` dict, which starts empty and gains keys as the
pipeline progresses; absent keys are `none`. -/
structure Meta where
  subdomains : Option (List Str)
  error : Option Str
  elapsed_seconds : Option ℚ
  research_count : Option ℕ
  pages_with_content : Option ℕ
  pages_summarized : Option ℕ
  gaps_found : Option ℕ
  total_subdomains : Option ℕ
deriving DecidableEq, Repr

/-- The top-level pipeline result dict (`pipeline.py` lines 92-109).
Stage fields that start as empty dicts and are later replaced by a report
are `Option`; list and string fields start empty. -/
structure PipeResult where
  client_profile : ClientProfile
  pipeline_log : List Str
  signal_strength : Option Signal
  niche_alignment : Option NicheAlignment
  keyword_analysis : List (Str × ℕ)
  saturation_report : Option SatReport
  semantic_gap_analysis : List GapResult
  competitive_intensity : List CompIntensity
  content_intelligence : Str
  content_strategy : List (String × Str)
  research_samples : Option (List Sample)
  meta : Meta
deriving DecidableEq, Repr

/-- The freshly initialised result skeleton (`pipeline.py` lines 92-109). -/
def initResult (niche platform audience goal : Str) : PipeResult :=
  { client_profile :=
      { niche := niche, platform := platform, target_audience := audience,
        business_goal := goal },
    pipeline_log := [], signal_strength := none, niche_alignment := none,
    keyword_analysis := [], saturation_report := none,
    semantic_gap_analysis := [], competitive_intensity := [],
    content_intelligence := [], content_strategy := [],
    research_samples := none,
    meta := { subdomains := none, error := none, elapsed_seconds := none,
              research_count := none, pages_with_content := none,
              pages_summarized := none, gaps_found := none,
              total_subdomains := none } }

/-- External effects performed by the orchestrator, one marker per stage
that reaches out to the network or the generation backend. -/
inductive Effect
  | checkOllama
  | research
  | subdomainGen
  | competitiveProbe
  | insightsCalls
  | strategyCalls
deriving DecidableEq, Repr

/-- The oracle for every external interaction of one pipeline run: backend
availability, what `research_niche` returned and logged, the three kinds of
LLM call outcomes, the per-gap competitive probe, and the elapsed time
(value and its `str()` rendering) observed at the end. -/
structure Oracle where
  ollamaAvailable : Bool
  researchLog : List Str
  researchData : List ResearchItem
  subdomainsCall : Except PyError (List Str)
  probe : Str → CompIntensity
  insightsCall1 : Except PyError Str
  insightsCall2 : Except PyError Str
  strategyCall1 : Except PyError Str
  strategyCall2 : Except PyError Str
  elapsed : ℚ
  elapsedRepr : Str

/-- Input validation (`pipeline.py` lines 83-87): the error message for the
first empty or whitespace-only input, in loop order. -/
def validateInputs (niche platform audience goal : Str) : Option Str :=
  if niche.isEmpty || (pyStrip niche).isEmpty then
    some (strOf "niche cannot be empty.")
  else if platform.isEmpty || (pyStrip platform).isEmpty then
    some (strOf "platform cannot be empty.")
  else if audience.isEmpty || (pyStrip audience).isEmpty then
    some (strOf "audience cannot be empty.")
  else if goal.isEmpty || (pyStrip goal).isEmpty then
    some (strOf "goal cannot be empty.")
  else none

/-- The `except` block of `run_pipeline` (`pipeline.py` lines 239-243):
append the error to the log, set `meta.error` and `meta.elapsed_seconds` on
the local result object, and re-raise the exception unchanged.  Only the
exception leaves the function; the mutated result object stays internal. -/
def pipelineFail (r : PipeResult) (log : List Str) (effs : List Effect)
    (e : PyError) (o : Oracle) :
    Except PyError PipeResult × Option PipeResult × List Effect :=
  let log := log ++ [strOf "ERROR: " ++ e.msg]
  let r :=
    { r with
      pipeline_log := log,
      meta := { r.meta with error := some e.msg,
                            elapsed_seconds := some o.elapsed } }
  (Except.error e, some r, effs)

/-- Identity on the typed result: `_ensure_json_serializable`
(`pipeline.py` lines 24-50) converts a value to mappings, sequences and
primitives, and every field of the typed model already is one. -/
def ensure_json_serializable (r : PipeResult) : PipeResult := r

/-- The pipeline orchestrator (`pipeline.py`, `run_pipeline` lines 53-243).
Returns the value the caller receives (`Except` mirrors return/raise), the
final state of the orchestrator's internal result object (`none` when
validation failed before the object was built), and the trace of external
stage effects in order. -/
def runPipelineModel (niche platform audience goal : Str) (o : Oracle) :
    Except PyError PipeResult × Option PipeResult × List Effect :=
  match validateInputs niche platform audience goal with
  | some msg => (Except.error ⟨EType.valueError, msg⟩, none, [])
  | none =>
    let r := initResult niche platform audience goal
    let log : List Str := [strOf "Checking Ollama availability..."]
    let effs : List Effect := [Effect.checkOllama]
    if !o.ollamaAvailable then
      pipelineFail r log effs
        ⟨EType.connectionError,
         strOf "Ollama is not running or qwen2.5-coder:7b is not installed. Start Ollama with: ollama serve"⟩ o
    else
      let log := log ++ [strOf "Ollama running with qwen2.5-coder:7b"]
      let log := log ++ [strOf "Step 1: Research..."]
      let effs := effs ++ [Effect.research]
      let research_data := o.researchData
      let log := log ++ o.researchLog
      if research_data.isEmpty then
        pipelineFail r log effs
          ⟨EType.runtimeError,
           strOf "No research data collected. Try a different niche."⟩ o
      else
        let log := log ++ [strOf "Research complete: " ++
                           natStr research_data.length ++ strOf " results."]
        let log := log ++ [strOf "Step 2: Niche alignment check..."]
        let alignment := check_niche_alignment research_data niche
        let r := { r with niche_alignment := some alignment }
        let log :=
          if alignment.drift_detected then
            log ++ [strOf "WARNING: " ++ alignment.drift_warning.getD []]
          else log
        let log := log ++ [strOf "Step 3: Keyword analysis..."]
        let keywords := analyze_keyword_frequency research_data
        let r := { r with keyword_analysis := keywords }
        let log := log ++ [strOf "Found " ++ natStr keywords.length ++
                           strOf " keywords."]
        let log := log ++ [strOf "Step 4: Signal assessment..."]
        let signal := assess_signal research_data
        let r := { r with signal_strength := some signal }
        let log := log ++ [strOf "Confidence: " ++ signal.confidence.data]
        let log := log ++ [strOf "Step 5: Saturation analysis..."]
        let saturation := analyze_structural_saturation research_data
        let r := { r with saturation_report := some saturation }
        let log := log ++ [strOf "Format: " ++ saturation.dominant_format.data ++
                           strOf " | Saturated: " ++
                           (if saturation.is_saturated then strOf "True"
                            else strOf "False")]
        let log := log ++ [strOf "Step 6: Dynamic subdomain generation..."]
        let effs := effs ++ [Effect.subdomainGen]
        let sdOut := generate_dynamic_subdomains o.subdomainsCall log
        let subdomains := sdOut.1
        let log := sdOut.2
        let r := { r with meta := { r.meta with subdomains := some subdomains } }
        let log := log ++ [strOf "Step 7: Gap detection..."]
        let gapOut := detect_gaps research_data subdomains log
        let gap_results := gapOut.1
        let log := gapOut.2
        let r := { r with semantic_gap_analysis := gap_results }
        let gap_count := (gap_results.filter (fun g => g.is_gap)).length
        let log := log ++ [strOf "Gaps found: " ++ natStr gap_count ++
                           strOf "/" ++ natStr gap_results.length]
        let log := log ++ [strOf "Step 8: Competitive intensity checks..."]
        let effs := effs ++ [Effect.competitiveProbe]
        let compOut := run_competitive_checks gap_results o.probe log
        let competitive := compOut.1
        let log := compOut.2
        let r := { r with competitive_intensity := competitive }
        let log := log ++ [strOf "Step 9: Intelligence extraction..."]
        let effs := effs ++ [Effect.insightsCalls]
        let insOut := extract_insights o.insightsCall1 o.insightsCall2 log
        match insOut.1 with
        | Except.error e => pipelineFail r insOut.2 effs e o
        | Except.ok insights =>
          let log := insOut.2
          let r := { r with content_intelligence := insights }
          let log := log ++ [strOf "Step 10: Strategy generation (2-pass)..."]
          let effs := effs ++ [Effect.strategyCalls]
          let stratOut := generate_strategy o.strategyCall1 o.strategyCall2 log
          match stratOut.1 with
          | Except.error e => pipelineFail r stratOut.2 effs e o
          | Except.ok strategy =>
            let log := stratOut.2
            let r := { r with content_strategy := strategy.sections }
            let r :=
              { r with
                meta :=
                  { r.meta with
                    elapsed_seconds := some o.elapsed,
                    research_count := some research_data.length,
                    pages_with_content := some signal.urls_with_content,
                    pages_summarized := some signal.urls_with_summaries,
                    gaps_found := some gap_count,
                    total_subdomains := some subdomains.length } }
            let r :=
              { r with
                research_samples := some (research_data.map
                  (fun (ri : ResearchItem) =>
                    { title := ri.title, snippet := ri.snippet.take 200,
                      url := ri.url, score := ri.score,
                      has_content := !(pyStrip ri.content).isEmpty,
                      has_summary := !(pyStrip ri.summary).isEmpty })) }
            let log := log ++ [strOf "Pipeline complete in " ++ o.elapsedRepr ++
                               strOf "s."]
            let r := { r with pipeline_log := log }
            let r := ensure_json_serializable r
            (Except.ok r, some r, effs)

/-!
Helper lemmas.
-/

lemma foldl_count_filter (p : Str → Bool) (l : List Str) (n : ℕ) :
    l.foldl (fun sc w => if p w then sc + 1 else sc) n =
      n + (l.filter p).length := by
  induction l generalizing n with
  | nil => rfl
  | cons a t ih =>
    by_cases h : p a = true
    · simp [List.foldl_cons, List.filter_cons, h, ih]
      omega
    · simp [List.foldl_cons, List.filter_cons, h, ih]

lemma insertLe_perm {α : Type} (le : α → α → Bool) (x : α) (l : List α) :
    List.Perm (insertLe le x l) (x :: l) := by
  induction l with
  | nil => exact List.Perm.refl _
  | cons y ys ih =>
    by_cases h : le x y = true
    · simp [insertLe, h]
    · simp only [insertLe, h, if_false, Bool.false_eq_true]
      exact (ih.cons y).trans (List.Perm.swap x y ys)

lemma sortLe_perm {α : Type} (le : α → α → Bool) (l : List α) :
    List.Perm (sortLe le l) l := by
  induction l with
  | nil => exact List.Perm.refl _
  | cons x xs ih =>
    exact (insertLe_perm le x (sortLe le xs)).trans (ih.cons x)

lemma ratFloor_eq (q : ℚ) : q.floor = Int.floor q := by
  rw [Rat.floor_def', Rat.floor_def]

lemma halfEven_nonneg (x : ℚ) (hx : 0 ≤ x) : 0 ≤ halfEven x := by
  have h0 : (0 : ℤ) ≤ Int.floor x := by
    exact_mod_cast Int.le_floor.mpr (by exact_mod_cast hx)
  unfold halfEven
  rw [ratFloor_eq]
  split_ifs <;> omega

lemma halfEven_le (x : ℚ) (b : ℤ) (hx : x ≤ (b : ℚ)) : halfEven x ≤ b := by
  have hf : Int.floor x ≤ b := by
    have := Int.floor_le_floor hx
    simpa using this
  have hx' : (Int.floor x : ℚ) ≤ x := Int.floor_le x
  unfold halfEven
  rw [ratFloor_eq]
  split_ifs with h1 h2 h3
  · exact hf
  · rcases lt_or_eq_of_le hf with hlt | heq
    · omega
    · exfalso
      have hxf : x = ((Int.floor x : ℤ) : ℚ) := by
        apply le_antisymm
        · rw [heq]; exact hx
        · exact hx'
      rw [← hxf] at h2
      simp at h2
      linarith
  · exact hf
  · rcases lt_or_eq_of_le hf with hlt | heq
    · omega
    · exfalso
      have hxf : x = ((Int.floor x : ℤ) : ℚ) := by
        apply le_antisymm
        · rw [heq]; exact hx
        · exact hx'
      rw [← hxf] at h1
      simp at h1

lemma pyRound_nonneg (q : ℚ) (nd : ℕ) (h : 0 ≤ q) : 0 ≤ pyRound q nd := by
  unfold pyRound
  apply div_nonneg
  · exact_mod_cast halfEven_nonneg _ (by positivity)
  · positivity

lemma pyRound_le_one (q : ℚ) (nd : ℕ) (h : q ≤ 1) : pyRound q nd ≤ 1 := by
  unfold pyRound
  rw [div_le_one (by positivity)]
  have : q * 10 ^ nd ≤ ((10 ^ nd : ℤ) : ℚ) := by
    push_cast
    nlinarith [pow_pos (show (0:ℚ) < 10 by norm_num) nd]
  exact_mod_cast halfEven_le _ _ this

/-!
Claim theorems.
-/

/-- C7.  The heuristic score equals the sum of: 2 for a digit in the
lower-cased title+snippet, 1 for a question mark, 1 for a title under 12
words, and 1 per power-word occurring in the combined text; it is a
non-negative integer, and the function is deterministic. -/
theorem heuristic_score_spec (title snippet : Str) :
    compute_heuristic_score title snippet =
      (if (pyLower (title ++ [' '] ++ snippet)).any Char.isDigit then 2 else 0) +
      (if (pyLower (title ++ [' '] ++ snippet)).contains '?' then 1 else 0) +
      (if (pySplitWs title).length < 12 then 1 else 0) +
      (POWER_WORDS.filter
        (containsSub (pyLower (title ++ [' '] ++ snippet)))).length ∧
    0 ≤ compute_heuristic_score title snippet ∧
    compute_heuristic_score title snippet =
      compute_heuristic_score title snippet := by
  refine ⟨?_, Nat.zero_le _, rfl⟩
  unfold compute_heuristic_score
  rw [foldl_count_filter]
  split_ifs <;> omega

/-- C4.  Cache round-trip: loading after saving returns exactly the saved
items while the entry's age is within the 24-hour window; once the age
exceeds 24 hours the load is empty regardless of the entry's payload; a
missing or unreadable/corrupt entry also loads as empty. -/
theorem cache_roundtrip_spec (items : List ResearchItem) (h : ℚ)
    (payload : Option (List ResearchItem)) :
    (h ≤ 24 → loadCacheEntry (some (savedEntryAt items h)) = items) ∧
    (h > 24 → loadCacheEntry (some ⟨h, payload⟩) = []) ∧
    loadCacheEntry none = [] ∧
    loadCacheEntry (some ⟨h, none⟩) = [] := by
  refine ⟨?_, ?_, rfl, ?_⟩
  · intro hfresh
    have hnot : ¬ (h > CACHE_MAX_AGE_HOURS) := by
      unfold CACHE_MAX_AGE_HOURS; exact not_lt.mpr hfresh
    have hmap : items.map serializeItem = items := by
      induction items with
      | nil => rfl
      | cons a t ih =>
        show serializeItem a :: t.map serializeItem = a :: t
        rw [ih]
        rfl
    simp only [loadCacheEntry, savedEntryAt, hnot, if_false, hmap]
    by_cases hi : items = []
    · simp [hi]
    · simp [hi]
  · intro hstale
    have : h > CACHE_MAX_AGE_HOURS := by unfold CACHE_MAX_AGE_HOURS; exact hstale
    simp [loadCacheEntry, this]
  · by_cases hh : h > CACHE_MAX_AGE_HOURS <;> simp [loadCacheEntry, hh]

/-- C4 witness: a concrete round-trip at age 10 hours, a stale read at age
30 hours, and the corrupt/missing cases. -/
theorem cache_roundtrip_witness :
    loadCacheEntry (some (savedEntryAt
      [⟨strOf "t", [], strOf "u", [], 3, []⟩] 10)) =
      [⟨strOf "t", [], strOf "u", [], 3, []⟩] ∧
    loadCacheEntry (some ⟨30, some [⟨strOf "t", [], strOf "u", [], 3, []⟩]⟩) = [] := by
  constructor
  · exact (cache_roundtrip_spec _ 10 none).1 (by norm_num)
  · exact (cache_roundtrip_spec [] 30 (some [⟨strOf "t", [], strOf "u", [], 3, []⟩])).2.1 (by norm_num)

lemma rfindIdx_lt_length {s : Str} {c : Char} {i : ℕ}
    (h : rfindIdx s c = some i) : i < s.length := by
  induction s generalizing i with
  | nil => simp [rfindIdx] at h
  | cons a t ih =>
    simp only [rfindIdx] at h
    cases hr : rfindIdx t c with
    | some j =>
      rw [hr] at h
      cases h
      exact Nat.succ_lt_succ (ih hr)
    | none =>
      rw [hr] at h
      by_cases ha : a = c
      · simp [ha] at h
        simp only [List.length_cons]
        omega
      · simp [ha] at h

lemma rfindIdx_none {s : Str} {c : Char} (h : rfindIdx s c = none) :
    ∀ j, s.get? j ≠ some c := by
  induction s with
  | nil => intro j; simp
  | cons a t ih =>
    intro j
    simp only [rfindIdx] at h
    cases hr : rfindIdx t c with
    | some j0 => rw [hr] at h; cases h
    | none =>
      rw [hr] at h
      by_cases ha : a = c
      · simp [ha] at h
      · cases j with
        | zero => simpa using fun hac => ha hac
        | succ k => simpa using ih hr k

lemma rfindIdx_eq_none {s : Str} {c : Char} (h : ∀ j, s.get? j ≠ some c) :
    rfindIdx s c = none := by
  induction s with
  | nil => rfl
  | cons a t ih =>
    have ht : rfindIdx t c = none := by
      apply ih
      intro j
      simpa using h (j + 1)
    have ha : ¬ a = c := by
      intro hac
      exact h 0 (by simp [hac])
    simp [rfindIdx, ht, ha]

lemma rfindIdx_last {s : Str} {c : Char} {i : ℕ}
    (h : rfindIdx s c = some i) : ∀ j, i < j → s.get? j ≠ some c := by
  induction s generalizing i with
  | nil => simp [rfindIdx] at h
  | cons a t ih =>
    intro j hj
    simp only [rfindIdx] at h
    cases hr : rfindIdx t c with
    | some j0 =>
      rw [hr] at h
      cases h
      cases j with
      | zero => omega
      | succ k => simpa using ih hr k (by omega)
    | none =>
      rw [hr] at h
      by_cases ha : a = c
      · simp [ha] at h
        cases j with
        | zero => omega
        | succ k => simpa using rfindIdx_none hr k
      · simp [ha] at h

lemma rfindIdx_eq_some {s : Str} {c : Char} {i : ℕ}
    (hg : s.get? i = some c) (hl : ∀ j, i < j → s.get? j ≠ some c) :
    rfindIdx s c = some i := by
  induction s generalizing i with
  | nil => simp at hg
  | cons a t ih =>
    cases i with
    | zero =>
      have ha : a = c := by simpa using hg
      have ht : rfindIdx t c = none := by
        apply rfindIdx_eq_none
        intro j
        simpa using hl (j + 1) (by omega)
      simp [rfindIdx, ht, ha]
    | succ k =>
      have ht : rfindIdx t c = some k := by
        apply ih
        · simpa using hg
        · intro j hj
          simpa using hl (j + 1) (by omega)
      simp [rfindIdx, ht]

/-- C5.  The extraction length gate returns the empty string whenever the
cleaned text is under 300 characters; it never returns more than 1200
characters; and when the cleaned text exceeds 1200 characters it returns
the 1200-character truncation, cut back just past the last sentence
boundary exactly when that boundary lies past the 50 percent mark (index
600) of the truncated text. -/
theorem extraction_length_gate_spec (cleaned : Str) :
    (cleaned.length < 300 → lengthGate cleaned = []) ∧
    (lengthGate cleaned).length ≤ 1200 ∧
    (cleaned.length > 1200 →
      ((∀ j, (cleaned.take 1200).get? j ≠ some '.') →
        lengthGate cleaned = cleaned.take 1200) ∧
      (∀ i, (cleaned.take 1200).get? i = some '.' →
        (∀ j, i < j → (cleaned.take 1200).get? j ≠ some '.') →
        lengthGate cleaned =
          (if 2 * i > 1200 then (cleaned.take 1200).take (i + 1)
           else cleaned.take 1200))) := by
  refine ⟨?_, ?_, ?_⟩
  · intro h
    simp [lengthGate, MIN_CONTENT_LENGTH, h]
  · by_cases h1 : cleaned.length < 300
    · simp [lengthGate, MIN_CONTENT_LENGTH, h1]
    · by_cases h2 : cleaned.length > 1200
      · simp only [lengthGate, MIN_CONTENT_LENGTH, MAX_CONTENT_LENGTH, h1,
          if_false, h2, if_true]
        cases hr : rfindIdx (cleaned.take 1200) '.' with
        | none => simp [List.length_take]
        | some lp =>
          by_cases h3 : 2 * lp > 1200
          · simp only [h3, if_true]
            simp [List.length_take]
          · simp only [h3, if_false]
            simp [List.length_take]
      · simp only [lengthGate, MIN_CONTENT_LENGTH, MAX_CONTENT_LENGTH, h1,
          if_false, h2, if_true]
        omega
  · intro h2
    have h1 : ¬ cleaned.length < 300 := by omega
    constructor
    · intro hnone
      have hr : rfindIdx (cleaned.take 1200) '.' = none := rfindIdx_eq_none hnone
      simp [lengthGate, MIN_CONTENT_LENGTH, MAX_CONTENT_LENGTH, h1, h2, hr]
    · intro i hg hl
      have hr : rfindIdx (cleaned.take 1200) '.' = some i := rfindIdx_eq_some hg hl
      simp [lengthGate, MIN_CONTENT_LENGTH, MAX_CONTENT_LENGTH, h1, h2, hr]

/-- C5 witness: a 299-character text is discarded, and a 1300-character
text is truncated to at most 1200 characters. -/
theorem extraction_length_gate_witness :
    lengthGate (List.replicate 299 'a') = [] ∧
    (lengthGate (List.replicate 1300 'b')).length ≤ 1200 :=
  ⟨(extraction_length_gate_spec (List.replicate 299 'a')).1
      (by rw [List.length_replicate]; omega),
   (extraction_length_gate_spec (List.replicate 1300 'b')).2.1⟩

lemma dedupGo_sublist (seen : List Str) (rs : List ResearchItem) :
    (dedupGo seen rs).Sublist rs := by
  induction rs generalizing seen with
  | nil => simp [dedupGo]
  | cons a t ih =>
    by_cases hc : normUrl a.url ∈ seen
    · simp only [dedupGo, hc, if_true]
      exact (ih seen).trans (List.sublist_cons_self a t)
    · simp only [dedupGo, hc, if_false]
      exact (ih (normUrl a.url :: seen)).cons₂ a

lemma dedupGo_first (seen : List Str) (rs : List ResearchItem) :
    ∀ r ∈ dedupGo seen rs, normUrl r.url ∉ seen ∧
      ∃ i, rs.get? i = some r ∧
        ∀ y ∈ rs.take i, normUrl y.url ≠ normUrl r.url := by
  induction rs generalizing seen with
  | nil => simp [dedupGo]
  | cons a t ih =>
    intro r hmem
    by_cases hc : normUrl a.url ∈ seen
    · rw [dedupGo, if_pos hc] at hmem
      obtain ⟨hnot, i, hget, hpre⟩ := ih seen r hmem
      refine ⟨hnot, i + 1, by simpa using hget, ?_⟩
      intro y hy
      rw [List.take_succ_cons] at hy
      rcases List.mem_cons.mp hy with hya | hyt
      · subst hya
        intro heq
        exact hnot (heq ▸ hc)
      · exact hpre y hyt
    · rw [dedupGo, if_neg hc] at hmem
      rcases List.mem_cons.mp hmem with hra | hrt
      · subst hra
        exact ⟨hc, 0, by simp, by simp⟩
      · obtain ⟨hnot, i, hget, hpre⟩ := ih (normUrl a.url :: seen) r hrt
        have hne : normUrl a.url ≠ normUrl r.url := by
          intro heq
          exact hnot (by simp [heq])
        refine ⟨fun hs => hnot (by simp [hs]), i + 1, by simpa using hget, ?_⟩
        intro y hy
        rw [List.take_succ_cons] at hy
        rcases List.mem_cons.mp hy with hya | hyt
        · subst hya
          exact hne
        · exact hpre y hyt

lemma dedupGo_class_covered (seen : List Str) (rs : List ResearchItem) :
    ∀ r ∈ rs, normUrl r.url ∈ seen ∨
      ∃ x ∈ dedupGo seen rs, normUrl x.url = normUrl r.url := by
  induction rs generalizing seen with
  | nil => simp
  | cons a t ih =>
    intro r hmem
    by_cases hc : normUrl a.url ∈ seen
    · rw [dedupGo, if_pos hc]
      rcases List.mem_cons.mp hmem with hra | hrt
      · subst hra
        exact Or.inl hc
      · exact ih seen r hrt
    · rw [dedupGo, if_neg hc]
      rcases List.mem_cons.mp hmem with hra | hrt
      · subst hra
        exact Or.inr ⟨r, List.mem_cons_self r _, rfl⟩
      · rcases ih (normUrl a.url :: seen) r hrt with hs | ⟨x, hx, hxe⟩
        · rcases List.mem_cons.mp hs with h1 | h2
          · exact Or.inr ⟨a, by simp, h1.symm⟩
          · exact Or.inl h2
        · exact Or.inr ⟨x, by simp [hx], hxe⟩

lemma dedupGo_nodup (seen : List Str) (rs : List ResearchItem) :
    ((dedupGo seen rs).map (fun r => normUrl r.url)).Nodup := by
  induction rs generalizing seen with
  | nil => simp [dedupGo]
  | cons a t ih =>
    by_cases hc : normUrl a.url ∈ seen
    · rw [dedupGo, if_pos hc]
      exact ih seen
    · rw [dedupGo, if_neg hc]
      refine List.Nodup.cons ?_ (ih (normUrl a.url :: seen))
      intro hmem
      rcases List.mem_map.mp hmem with ⟨x, hx, hxe⟩
      have := (dedupGo_first (normUrl a.url :: seen) t x hx).1
      exact this (by simp [hxe])

/-- C6.  De-duplication keeps exactly the first-encountered entry of every
class of URLs equal after trailing-slash stripping and lower-casing,
preserving the input order, and the research pipeline's deduplicated list
is capped at 12 entries. -/
theorem dedup_first_occurrence_spec (results : List ResearchItem) :
    (dedup results).Sublist results ∧
    ((dedup results).map (fun r => normUrl r.url)).Nodup ∧
    (∀ r ∈ results, ∃ x ∈ dedup results, normUrl x.url = normUrl r.url) ∧
    (∀ x ∈ dedup results, ∃ i, results.get? i = some x ∧
      ∀ y ∈ results.take i, normUrl y.url ≠ normUrl x.url) ∧
    (researchDedupCap results).length ≤ 12 := by
  refine ⟨dedupGo_sublist [] results, dedupGo_nodup [] results, ?_, ?_, ?_⟩
  · intro r hr
    rcases dedupGo_class_covered [] results r hr with hs | hx
    · simp at hs
    · exact hx
  · intro x hx
    exact (dedupGo_first [] results x hx).2
  · unfold researchDedupCap
    simp [List.length_take]

/-- C6 witness: three entries whose first two URLs differ only by a
trailing slash and case collapse to the first occurrence; the cap bound
holds on the same list. -/
theorem dedup_first_occurrence_witness :
    (∃ x ∈ dedup [⟨[], [], strOf "http://A/", [], 0, []⟩,
                  ⟨[], [], strOf "http://a", [], 0, []⟩,
                  ⟨[], [], strOf "http://b", [], 0, []⟩],
       normUrl x.url =
         normUrl (ResearchItem.url ⟨[], [], strOf "http://a", [], 0, []⟩)) ∧
    (researchDedupCap [⟨[], [], strOf "http://A/", [], 0, []⟩,
                       ⟨[], [], strOf "http://a", [], 0, []⟩,
                       ⟨[], [], strOf "http://b", [], 0, []⟩]).length ≤ 12 :=
  ⟨(dedup_first_occurrence_spec _).2.2.1 ⟨[], [], strOf "http://a", [], 0, []⟩
      (by simp),
   (dedup_first_occurrence_spec _).2.2.2.2⟩

/-- C1 counterexample.  For the corpus built from one item titled "market"
and the subdomain "go to niche market" (4 words, of which only "niche" and
"market" are longer than 2 characters), the claim's coverage is
1 matched word / 4 total words = 0.25 < 0.3, so the claim demands
similarity 0.25 and a gap; the code divides by the 2 words longer than 2
characters and reports similarity 0.5 with no gap. -/
theorem gap_coverage_denominator_cex :
    keywordGaps [⟨strOf "market", [], [], [], 0, []⟩]
        [strOf "go to niche market"] =
      [{ subdomain := strOf "go to niche market", similarity := 1/2,
         is_gap := false, method := strOf "keyword" }] ∧
    ((1 : ℚ) / 4 < 3 / 10) := by
  have hw : ((pySplitWs (strOf "go to niche market")).filter
      (fun w => w.length > 2)).map pyLower = [strOf "niche", strOf "market"] := by
    decide
  have hf : ([strOf "niche", strOf "market"].filter
      (containsSub (buildGapCorpus [⟨strOf "market", [], [], [], 0, []⟩]))) =
      [strOf "market"] := by decide
  constructor
  · have hred : keywordGaps [⟨strOf "market", [], [], [], 0, []⟩]
        [strOf "go to niche market"] =
        [gapEntry (buildGapCorpus [⟨strOf "market", [], [], [], 0, []⟩])
          (strOf "go to niche market")] := rfl
    rw [hred]
    simp only [gapEntry, hw, hf]
    norm_num [pyRound, halfEven, ratFloor_eq]
  · norm_num

/-- C1 amended.  For every corpus and subdomain, the entry's `similarity`
is the coverage rounded to 3 decimals, where coverage = (words of length
greater than 2 found as substrings of the lower-cased concatenated corpus)
divided by the number of the subdomain's words of length greater than 2
(0 when there are none); `is_gap` holds exactly when the unrounded
coverage is below 0.3; the similarity lies in [0,1]; and the result list
is a permutation of one entry per subdomain. -/
theorem gap_detection_amended (research_data : List ResearchItem)
    (subdomains : List Str) :
    List.Perm (keywordGaps research_data subdomains)
      (subdomains.map (gapEntry (buildGapCorpus research_data))) ∧
    ∀ sd ∈ subdomains,
      let corpus := buildGapCorpus research_data
      let words := ((pySplitWs sd).filter (fun w => w.length > 2)).map pyLower
      let cov : ℚ := if words.length = 0 then 0
        else ((words.filter (containsSub corpus)).length : ℚ) / words.length
      (gapEntry corpus sd).similarity = pyRound cov 3 ∧
      ((gapEntry corpus sd).is_gap = true ↔ cov < 3/10) ∧
      0 ≤ (gapEntry corpus sd).similarity ∧
      (gapEntry corpus sd).similarity ≤ 1 := by
  constructor
  · exact sortLe_perm gapLe _
  · intro sd hsd
    dsimp only
    have hcov0 :
        (0 : ℚ) ≤ (if (((pySplitWs sd).filter (fun w => w.length > 2)).map pyLower).length = 0 then 0
          else (((((pySplitWs sd).filter (fun w => w.length > 2)).map pyLower).filter
            (containsSub (buildGapCorpus research_data))).length : ℚ) /
            (((pySplitWs sd).filter (fun w => w.length > 2)).map pyLower).length) := by
      split_ifs
      · exact le_refl 0
      · positivity
    have hcov1 :
        (if (((pySplitWs sd).filter (fun w => w.length > 2)).map pyLower).length = 0 then (0 : ℚ)
          else (((((pySplitWs sd).filter (fun w => w.length > 2)).map pyLower).filter
            (containsSub (buildGapCorpus research_data))).length : ℚ) /
            (((pySplitWs sd).filter (fun w => w.length > 2)).map pyLower).length) ≤ 1 := by
      split_ifs with hz
      · norm_num
      · rw [div_le_one (by positivity)]
        exact_mod_cast List.length_filter_le _ _
    refine ⟨rfl, ?_, ?_, ?_⟩
    · simp [gapEntry]
    · exact pyRound_nonneg _ 3 hcov0
    · exact pyRound_le_one _ 3 hcov1

/-- C1 witness for the amended statement, at the counterexample corpus and
subdomain. -/
theorem gap_detection_amended_witness :
    0 ≤ (gapEntry (buildGapCorpus [⟨strOf "market", [], [], [], 0, []⟩])
          (strOf "go to niche market")).similarity ∧
    (gapEntry (buildGapCorpus [⟨strOf "market", [], [], [], 0, []⟩])
          (strOf "go to niche market")).similarity ≤ 1 :=
  ⟨((gap_detection_amended [⟨strOf "market", [], [], [], 0, []⟩]
        [strOf "go to niche market"]).2 (strOf "go to niche market")
        (by simp)).2.2.1,
   ((gap_detection_amended [⟨strOf "market", [], [], [], 0, []⟩]
        [strOf "go to niche market"]).2 (strOf "go to niche market")
        (by simp)).2.2.2⟩

set_option maxRecDepth 8000 in
/-- C2 counterexample.  With a 200-character draft and a 100-character
refined text, the refined text's length is exactly half the draft's, so
the claim's "at least half" rule demands that it replace the draft; the
code's strict comparison keeps the draft and logs the skip. -/
theorem strategy_refine_half_cex :
    ((generate_strategy (Except.ok (List.replicate 200 'a'))
        (Except.ok (List.replicate 100 'b')) []).1.toOption.map
      (fun o => o.rawFinal)) = some (List.replicate 200 'a') ∧
    2 * (pyStrip (List.replicate 100 'b')).length =
      (List.replicate 200 'a').length ∧
    (List.replicate 200 'a' : Str) ≠ List.replicate 100 'b' ∧
    strOf "Pass 2 too short. Using Pass 1." ∈
      (generate_strategy (Except.ok (List.replicate 200 'a'))
        (Except.ok (List.replicate 100 'b')) []).2 := by
  refine ⟨rfl, by decide, by decide, by decide⟩

/-- C2 amended.  When pass 1 succeeds with a usable draft and the refine
call succeeds with non-empty text, the refined output becomes the final
strategy exactly when its stripped length is strictly more than half the
draft's length; otherwise (including at exactly half) the draft is kept
and the skip is logged. -/
theorem strategy_refine_amended (raw refined : Str) (log : List Str)
    (h1 : raw.isEmpty = false) (h2 : 100 ≤ (pyStrip raw).length)
    (h3 : refined.isEmpty = false) :
    ∃ out : StrategyOut,
      (generate_strategy (Except.ok raw) (Except.ok refined) log).1 =
        Except.ok out ∧
      out.rawFinal =
        (if 2 * (pyStrip refined).length > raw.length then refined else raw) ∧
      (2 * (pyStrip refined).length ≤ raw.length →
        out.rawFinal = raw ∧
        strOf "Pass 2 too short. Using Pass 1." ∈
          (generate_strategy (Except.ok raw) (Except.ok refined) log).2) := by
  have hg : (raw.isEmpty || decide ((pyStrip raw).length < 100)) = false := by
    rw [h1]
    simp only [Bool.false_or, decide_eq_false_iff_not]
    omega
  simp only [generate_strategy, hg, Bool.false_eq_true, if_false, h3,
    Bool.not_false, Bool.true_and]
  by_cases hc : 2 * (pyStrip refined).length > raw.length
  · rw [if_pos (by exact decide_eq_true hc)]
    refine ⟨_, rfl, ?_, ?_⟩
    · rw [if_pos hc]
    · intro hle
      omega
  · rw [if_neg (by simpa using hc)]
    refine ⟨_, rfl, ?_, ?_⟩
    · rw [if_neg hc]
    · intro _
      refine ⟨rfl, ?_⟩
      simp

set_option maxRecDepth 8000 in
/-- C2 witness for the amended statement: a 51-character refined text is
strictly more than half of a 100-character draft and replaces it. -/
theorem strategy_refine_amended_witness :
    ((generate_strategy (Except.ok (List.replicate 100 'a'))
        (Except.ok (List.replicate 51 'b')) []).1.toOption.map
      (fun o => o.rawFinal)) = some (List.replicate 51 'b') := by
  obtain ⟨out, hout, hfin, -⟩ :=
    strategy_refine_amended (List.replicate 100 'a') (List.replicate 51 'b')
      [] (by decide) (by decide) (by decide)
  rw [hout]
  simp only [Except.toOption, Option.map]
  rw [hfin, if_pos (by decide)]

lemma buildSections_length (raw : Str) (l : List (ℕ × String × ℕ)) :
    (buildSections raw l).length = l.length := by
  induction l with
  | nil => rfl
  | cons b rest ih => simp [buildSections, ih]

lemma buildSections_get (raw : Str) (l : List (ℕ × String × ℕ)) (i : ℕ) :
    (buildSections raw l).get? i = (l.get? i).map
      (fun b => (b.2.1, cleanupSection (sliceStr raw b.2.2
        (match l.get? (i + 1) with
         | some b2 => b2.1
         | none => raw.length)))) := by
  induction l generalizing i with
  | nil => simp [buildSections]
  | cons b rest ih =>
    cases i with
    | zero =>
      cases rest with
      | nil => simp [buildSections]
      | cons b2 rest2 => simp [buildSections]
    | succ k =>
      simpa [buildSections] using ih k

/-- C9.  Section splitting: when fewer than 3 of the six headers are
located, the whole text is returned as the single unstructured
`full_strategy` section; with at least 3 located headers, the boundaries
are ordered by match start, there is one section per located header, and
the i-th section's body is the text from just after its header match to
the start of the next located header (or the end of the text for the
last), trimmed of surrounding whitespace and of leading ':' and '-'
characters. -/
theorem split_sections_spec (raw : Str) :
    ((findBoundaries raw).length < 3 →
      split_sections raw = [("full_strategy", raw)]) ∧
    (3 ≤ (findBoundaries raw).length →
      (split_sections raw).length = (findBoundaries raw).length ∧
      ∀ i b,
        (sortLe (fun a b => decide (a.1 ≤ b.1)) (findBoundaries raw)).get? i =
          some b →
        (split_sections raw).get? i = some
          (b.2.1, cleanupSection (sliceStr raw b.2.2
            (match (sortLe (fun a b => decide (a.1 ≤ b.1))
                (findBoundaries raw)).get? (i + 1) with
             | some b2 => b2.1
             | none => raw.length)))) := by
  constructor
  · intro h
    simp [split_sections, h]
  · intro h
    have hnot : ¬ (findBoundaries raw).length < 3 := by omega
    constructor
    · simp only [split_sections, hnot, if_false]
      rw [buildSections_length]
      exact (sortLe_perm _ _).length_eq
    · intro i b hb
      simp only [split_sections, hnot, if_false]
      rw [buildSections_get, hb]
      rfl

set_option maxRecDepth 8000 in
/-- C9 witness: a text with no headers collapses to the single
`full_strategy` section, and a text with three located headers yields one
section per located header. -/
theorem split_sections_witness :
    split_sections (strOf "no headers here") =
      [("full_strategy", strOf "no headers here")] ∧
    (split_sections (strOf "## 1. STRATEGIC POSITIONING\nbe bold\n## 2. CONTENT PILLARS\n- p1\n## 3. OPTIMIZED HOOKS\nh1")).length =
      (findBoundaries (strOf "## 1. STRATEGIC POSITIONING\nbe bold\n## 2. CONTENT PILLARS\n- p1\n## 3. OPTIMIZED HOOKS\nh1")).length :=
  ⟨(split_sections_spec (strOf "no headers here")).1 (by decide),
   ((split_sections_spec (strOf "## 1. STRATEGIC POSITIONING\nbe bold\n## 2. CONTENT PILLARS\n- p1\n## 3. OPTIMIZED HOOKS\nh1")).2 (by decide)).1⟩

/-- C8 counterexample.  For a corpus of two items of which exactly one
title matches the list patterns, exactly 50 percent of titles match, so
the claim's "at least 50%" rule demands "Listicle saturation" with the
saturation flag set; the code's strict comparison (`combined_pct > 50`)
classifies it as "Mixed formats" with the flag clear. -/
theorem saturation_threshold_cex :
    (analyze_structural_saturation [⟨strOf "top tips", [], [], [], 0, []⟩,
      ⟨strOf "hello world", [], [], [], 0, []⟩]).dominant_format =
      "Mixed formats" ∧
    (analyze_structural_saturation [⟨strOf "top tips", [], [], [], 0, []⟩,
      ⟨strOf "hello world", [], [], [], 0, []⟩]).is_saturated = false ∧
    2 * (analyze_structural_saturation [⟨strOf "top tips", [], [], [], 0, []⟩,
      ⟨strOf "hello world", [], [], [], 0, []⟩]).list_count =
      (analyze_structural_saturation [⟨strOf "top tips", [], [], [], 0, []⟩,
      ⟨strOf "hello world", [], [], [], 0, []⟩]).total := by
  have hA : bodyText ⟨strOf "top tips", [], [], [], 0, []⟩ = [] := by decide
  have hB : bodyText ⟨strOf "hello world", [], [], [], 0, []⟩ = [] := by decide
  have hl : (List.filter (fun s => listReMatch (s.title ++ (strOf " " ++ s.snippet)))
      [(⟨strOf "top tips", [], [], [], 0, []⟩ : ResearchItem),
       ⟨strOf "hello world", [], [], [], 0, []⟩]).length = 1 := by decide
  have hg : (List.filter (fun s => guideReMatch (s.title ++ (strOf " " ++ s.snippet)))
      [(⟨strOf "top tips", [], [], [], 0, []⟩ : ResearchItem),
       ⟨strOf "hello world", [], [], [], 0, []⟩]).length = 0 := by decide
  have hc : (List.filter (fun s => compareReMatch (s.title ++ (strOf " " ++ s.snippet)))
      [(⟨strOf "top tips", [], [], [], 0, []⟩ : ResearchItem),
       ⟨strOf "hello world", [], [], [], 0, []⟩]).length = 0 := by decide
  refine ⟨?_, ?_, ?_⟩ <;>
    simp only [analyze_structural_saturation] <;>
    norm_num [hA, hB, hl, hg, hc]

/-- C8 amended.  For every non-empty corpus: "Listicle saturation" is the
dominant format exactly when strictly more than 50 percent of
titles/snippets or of non-empty summarised bodies match the list
patterns; `is_saturated` is set exactly in that case; otherwise the
cascade is "Guide/tutorial heavy" at strictly more than 40 percent guide
matches, then "Comparison heavy" at strictly more than 30 percent
comparison matches, then "Mixed formats". -/
theorem saturation_classification_amended (research_data : List ResearchItem)
    (h : research_data ≠ []) :
    let rep := analyze_structural_saturation research_data
    let t_pct : ℚ := (((research_data.filter
      (fun s => listReMatch (s.title ++ strOf " " ++ s.snippet))).length : ℚ) /
      research_data.length) * 100
    let samples := (research_data.map bodyText).filter (fun t => !t.isEmpty)
    let c_pct : ℚ := if samples.length = 0 then 0
      else (((samples.filter contentListMatch).length : ℚ) / samples.length) * 100
    let combined := max t_pct c_pct
    let gcQ : ℚ := ((research_data.filter
      (fun s => guideReMatch (s.title ++ strOf " " ++ s.snippet))).length : ℚ)
    let ccQ : ℚ := ((research_data.filter
      (fun s => compareReMatch (s.title ++ strOf " " ++ s.snippet))).length : ℚ)
    (rep.dominant_format = "Listicle saturation" ↔ combined > 50) ∧
    (rep.is_saturated = true ↔ combined > 50) ∧
    (¬ combined > 50 → gcQ > (research_data.length : ℚ) * (4/10) →
      rep.dominant_format = "Guide/tutorial heavy") ∧
    (¬ combined > 50 → ¬ gcQ > (research_data.length : ℚ) * (4/10) →
      ccQ > (research_data.length : ℚ) * (3/10) →
      rep.dominant_format = "Comparison heavy") ∧
    (¬ combined > 50 → ¬ gcQ > (research_data.length : ℚ) * (4/10) →
      ¬ ccQ > (research_data.length : ℚ) * (3/10) →
      rep.dominant_format = "Mixed formats") := by
  have htot : ¬ research_data.length = 0 := by
    simpa [List.length_eq_zero] using h
  dsimp only
  simp only [analyze_structural_saturation, htot, if_false]
  by_cases h50 : max ((((research_data.filter
      (fun s => listReMatch (s.title ++ strOf " " ++ s.snippet))).length : ℚ) /
      research_data.length) * 100)
      (if ((research_data.map bodyText).filter (fun t => !t.isEmpty)).length = 0 then 0
       else (((((research_data.map bodyText).filter (fun t => !t.isEmpty)).filter
         contentListMatch).length : ℚ) /
         ((research_data.map bodyText).filter (fun t => !t.isEmpty)).length) * 100) > 50
  · rw [if_pos h50]
    refine ⟨iff_of_true rfl h50, ?_, fun hn => (hn h50).elim,
      fun hn => (hn h50).elim, fun hn => (hn h50).elim⟩
    simp only [decide_eq_true_eq]
  · rw [if_neg h50]
    by_cases hgc : ((research_data.filter
        (fun s => guideReMatch (s.title ++ strOf " " ++ s.snippet))).length : ℚ) >
        (research_data.length : ℚ) * (4/10)
    · rw [if_pos hgc]
      refine ⟨iff_of_false (by decide) h50, ?_, fun _ _ => rfl,
        fun _ hgn => (hgn hgc).elim, fun _ hgn => (hgn hgc).elim⟩
      simp only [decide_eq_true_eq]
    · rw [if_neg hgc]
      by_cases hcc : ((research_data.filter
          (fun s => compareReMatch (s.title ++ strOf " " ++ s.snippet))).length : ℚ) >
          (research_data.length : ℚ) * (3/10)
      · rw [if_pos hcc]
        refine ⟨iff_of_false (by decide) h50, ?_, fun _ hgp => (hgc hgp).elim,
          fun _ _ _ => rfl, fun _ _ hcn => (hcn hcc).elim⟩
        simp only [decide_eq_true_eq]
      · rw [if_neg hcc]
        refine ⟨iff_of_false (by decide) h50, ?_, fun _ hgp => (hgc hgp).elim,
          fun _ _ hcp => (hcc hcp).elim, fun _ _ _ => rfl⟩
        simp only [decide_eq_true_eq]

/-- C8 witness for the amended statement: a single non-matching item falls
through every threshold to "Mixed formats". -/
theorem saturation_classification_amended_witness :
    (analyze_structural_saturation
      [⟨strOf "hello world", [], [], [], 0, []⟩]).dominant_format =
      "Mixed formats" := by
  have hl : (List.filter (fun s => listReMatch (s.title ++ strOf " " ++ s.snippet))
      [(⟨strOf "hello world", [], [], [], 0, []⟩ : ResearchItem)]).length = 0 := by
    decide
  have hg : (List.filter (fun s => guideReMatch (s.title ++ strOf " " ++ s.snippet))
      [(⟨strOf "hello world", [], [], [], 0, []⟩ : ResearchItem)]).length = 0 := by
    decide
  have hc : (List.filter (fun s => compareReMatch (s.title ++ strOf " " ++ s.snippet))
      [(⟨strOf "hello world", [], [], [], 0, []⟩ : ResearchItem)]).length = 0 := by
    decide
  have hb : ((List.map bodyText
      [(⟨strOf "hello world", [], [], [], 0, []⟩ : ResearchItem)]).filter
        (fun t => !t.isEmpty)).length = 0 := by decide
  exact (saturation_classification_amended
      [⟨strOf "hello world", [], [], [], 0, []⟩] (by simp)).2.2.2.2
    (by rw [hl, hb]; norm_num)
    (by rw [hg]; norm_num)
    (by rw [hc]; norm_num)

lemma pipelineFail_spec (r : PipeResult) (log : List Str) (effs : List Effect)
    (e : PyError) (o : Oracle) :
    (pipelineFail r log effs e o).1 = Except.error e ∧
    ∃ r', (pipelineFail r log effs e o).2.1 = some r' ∧
      r'.meta.error = some e.msg ∧
      r'.meta.elapsed_seconds = some o.elapsed ∧
      r'.pipeline_log.getLast? = some (strOf "ERROR: " ++ e.msg) := by
  refine ⟨rfl, _, rfl, rfl, rfl, ?_⟩
  exact List.getLast?_concat _

lemma runPipelineModel_cases (niche platform audience goal : Str) (o : Oracle) :
    (∃ msg, validateInputs niche platform audience goal = some msg ∧
      runPipelineModel niche platform audience goal o =
        (Except.error ⟨EType.valueError, msg⟩, none, [])) ∨
    (∃ r log effs e, runPipelineModel niche platform audience goal o =
      pipelineFail r log effs e o) ∨
    (∃ r effs, runPipelineModel niche platform audience goal o =
      (Except.ok r, some r, effs) ∧ r.meta.error = none) := by
  unfold runPipelineModel
  cases hv : validateInputs niche platform audience goal with
  | some msg =>
    exact Or.inl ⟨msg, rfl, rfl⟩
  | none =>
    right
    dsimp only
    split
    · exact Or.inl ⟨_, _, _, _, rfl⟩
    · split
      · exact Or.inl ⟨_, _, _, _, rfl⟩
      · split
        · exact Or.inl ⟨_, _, _, _, rfl⟩
        · split
          · exact Or.inl ⟨_, _, _, _, rfl⟩
          · exact Or.inr ⟨_, _, rfl, rfl⟩

/-- C3 amended.  On every run: when the orchestrator surfaces a failure,
either validation failed before the result object was built (no internal
result exists), or the internal result object was updated before
re-raising — `meta.error` set to the error description,
`meta.elapsed_seconds` recorded, and the log ending with the `ERROR:`
entry; the raised exception itself carries only the error class and
message, not the result object.  On success `meta.error` is never
populated. -/
theorem pipeline_error_state_amended (niche platform audience goal : Str)
    (o : Oracle) :
    (∀ e, (runPipelineModel niche platform audience goal o).1 =
        Except.error e →
      (runPipelineModel niche platform audience goal o).2.1 = none ∨
      ∃ r, (runPipelineModel niche platform audience goal o).2.1 = some r ∧
        r.meta.error = some e.msg ∧
        r.meta.elapsed_seconds = some o.elapsed ∧
        r.pipeline_log.getLast? = some (strOf "ERROR: " ++ e.msg)) ∧
    (∀ r, (runPipelineModel niche platform audience goal o).1 =
        Except.ok r → r.meta.error = none) := by
  rcases runPipelineModel_cases niche platform audience goal o with
    ⟨msg, hv, heq⟩ | ⟨r, log, effs, e0, heq⟩ | ⟨r, effs, heq, hmeta⟩
  · constructor
    · intro e _
      rw [heq]
      exact Or.inl rfl
    · intro r hok
      rw [heq] at hok
      cases hok
  · obtain ⟨hfst, r', hsome, hme, hel, hlog⟩ := pipelineFail_spec r log effs e0 o
    constructor
    · intro e he
      rw [heq] at he ⊢
      rw [hfst] at he
      cases he
      exact Or.inr ⟨r', hsome, hme, hel, hlog⟩
    · intro rr hok
      rw [heq, hfst] at hok
      cases hok
  · constructor
    · intro e he
      rw [heq] at he
      cases he
    · intro rr hok
      rw [heq] at hok
      cases hok
      exact hmeta

/-- C3 witness for the amended statement: with the backend unavailable,
the surfaced failure is a `ConnectionError` and the internal result
records it in `meta.error`. -/
theorem pipeline_error_state_amended_witness :
    ∃ r, (runPipelineModel (strOf "n") (strOf "p") (strOf "a") (strOf "g")
      { ollamaAvailable := false, researchLog := [], researchData := [],
        subdomainsCall := Except.ok [], probe := fun _ => ⟨[], "LOW", -1, 0⟩,
        insightsCall1 := Except.ok [], insightsCall2 := Except.ok [],
        strategyCall1 := Except.ok [], strategyCall2 := Except.ok [],
        elapsed := 0, elapsedRepr := [] }).2.1 = some r ∧
      r.meta.error = some (strOf "Ollama is not running or qwen2.5-coder:7b is not installed. Start Ollama with: ollama serve") := by
  have h := (pipeline_error_state_amended (strOf "n") (strOf "p") (strOf "a")
    (strOf "g")
    { ollamaAvailable := false, researchLog := [], researchData := [],
      subdomainsCall := Except.ok [], probe := fun _ => ⟨[], "LOW", -1, 0⟩,
      insightsCall1 := Except.ok [], insightsCall2 := Except.ok [],
      strategyCall1 := Except.ok [], strategyCall2 := Except.ok [],
      elapsed := 0, elapsedRepr := [] }).1
    ⟨EType.connectionError,
     strOf "Ollama is not running or qwen2.5-coder:7b is not installed. Start Ollama with: ollama serve"⟩
    rfl
  rcases h with hnone | ⟨r, hsome, hme, -, -⟩
  · cases hnone.symm.trans (rfl :
      (runPipelineModel (strOf "n") (strOf "p") (strOf "a") (strOf "g")
        { ollamaAvailable := false, researchLog := [], researchData := [],
          subdomainsCall := Except.ok [], probe := fun _ => ⟨[], "LOW", -1, 0⟩,
          insightsCall1 := Except.ok [], insightsCall2 := Except.ok [],
          strategyCall1 := Except.ok [], strategyCall2 := Except.ok [],
          elapsed := 0, elapsedRepr := [] }).2.1 = some _)
  · exact ⟨r, hsome, hme⟩

set_option maxRecDepth 8000 in
/-- C3 counterexample.  The claim says the failure surfaced to the caller
carries the partially filled result object and the accumulated log, i.e.
the internal result state is recoverable from what the caller receives.
It is not: a `raise` propagates only the exception (class and message).
Two runs that differ in their retrieval data fail at the strategy draft
with the identical exception, while their internal partial results differ
(1 vs 2 research results in `signal_strength`), so no function of the
surfaced error can return the internal result object. -/
theorem pipeline_error_not_carrying_result_cex :
    ¬ ∃ f : PyError → Option PipeResult,
      ∀ (o : Oracle) (e : PyError),
        (runPipelineModel (strOf "n") (strOf "p") (strOf "a") (strOf "g")
          o).1 = Except.error e →
        f e = (runPipelineModel (strOf "n") (strOf "p") (strOf "a")
          (strOf "g") o).2.1 := by
  rintro ⟨f, hf⟩
  have h1 := hf
    { ollamaAvailable := true, researchLog := [],
      researchData := [⟨strOf "a", [], strOf "u1", [], 0, []⟩],
      subdomainsCall := Except.ok [strOf "aa bb", strOf "cc dd",
        strOf "ee ff", strOf "gg hh", strOf "ii jj"],
      probe := fun _ => ⟨[], "LOW", -1, 0⟩,
      insightsCall1 := Except.ok (strOf "i"),
      insightsCall2 := Except.ok (strOf "j"),
      strategyCall1 := Except.ok (strOf "short"),
      strategyCall2 := Except.ok (strOf "x"),
      elapsed := 0, elapsedRepr := [] }
    ⟨EType.runtimeError, strOf "Strategy Pass 1 insufficient output."⟩
    rfl
  have h2 := hf
    { ollamaAvailable := true, researchLog := [],
      researchData := [⟨strOf "a", [], strOf "u1", [], 0, []⟩,
        ⟨strOf "b", [], strOf "u2", [], 0, []⟩],
      subdomainsCall := Except.ok [strOf "aa bb", strOf "cc dd",
        strOf "ee ff", strOf "gg hh", strOf "ii jj"],
      probe := fun _ => ⟨[], "LOW", -1, 0⟩,
      insightsCall1 := Except.ok (strOf "i"),
      insightsCall2 := Except.ok (strOf "j"),
      strategyCall1 := Except.ok (strOf "short"),
      strategyCall2 := Except.ok (strOf "x"),
      elapsed := 0, elapsedRepr := [] }
    ⟨EType.runtimeError, strOf "Strategy Pass 1 insufficient output."⟩
    rfl
  have hcontra := congrArg
    (Option.map (fun r => r.signal_strength.map (fun s => s.total_urls)))
    (h1.symm.trans h2)
  have hv1 : ((runPipelineModel (strOf "n") (strOf "p") (strOf "a")
      (strOf "g")
      { ollamaAvailable := true, researchLog := [],
        researchData := [⟨strOf "a", [], strOf "u1", [], 0, []⟩],
        subdomainsCall := Except.ok [strOf "aa bb", strOf "cc dd",
          strOf "ee ff", strOf "gg hh", strOf "ii jj"],
        probe := fun _ => ⟨[], "LOW", -1, 0⟩,
        insightsCall1 := Except.ok (strOf "i"),
        insightsCall2 := Except.ok (strOf "j"),
        strategyCall1 := Except.ok (strOf "short"),
        strategyCall2 := Except.ok (strOf "x"),
        elapsed := 0, elapsedRepr := [] }).2.1.map
      (fun r => r.signal_strength.map (fun s => s.total_urls))) =
      some (some 1) := rfl
  have hv2 : ((runPipelineModel (strOf "n") (strOf "p") (strOf "a")
      (strOf "g")
      { ollamaAvailable := true, researchLog := [],
        researchData := [⟨strOf "a", [], strOf "u1", [], 0, []⟩,
          ⟨strOf "b", [], strOf "u2", [], 0, []⟩],
        subdomainsCall := Except.ok [strOf "aa bb", strOf "cc dd",
          strOf "ee ff", strOf "gg hh", strOf "ii jj"],
        probe := fun _ => ⟨[], "LOW", -1, 0⟩,
        insightsCall1 := Except.ok (strOf "i"),
        insightsCall2 := Except.ok (strOf "j"),
        strategyCall1 := Except.ok (strOf "short"),
        strategyCall2 := Except.ok (strOf "x"),
        elapsed := 0, elapsedRepr := [] }).2.1.map
      (fun r => r.signal_strength.map (fun s => s.total_urls))) =
      some (some 2) := rfl
  rw [hv1, hv2] at hcontra
  cases hcontra

/-- C10.  Whenever any of the four inputs is empty or whitespace-only, the
pipeline entry point raises `ValueError` immediately: the outcome is the
`ValueError` with the matching message, no internal result object exists,
and the effect trace is empty — the backend-availability check and all
network stages never run. -/
theorem pipeline_input_validation_spec (niche platform audience goal : Str)
    (o : Oracle)
    (h : (pyStrip niche).isEmpty = true ∨ (pyStrip platform).isEmpty = true ∨
      (pyStrip audience).isEmpty = true ∨ (pyStrip goal).isEmpty = true) :
    ∃ msg, runPipelineModel niche platform audience goal o =
        (Except.error ⟨EType.valueError, msg⟩, none, []) ∧
      msg ∈ [strOf "niche cannot be empty.", strOf "platform cannot be empty.",
        strOf "audience cannot be empty.", strOf "goal cannot be empty."] := by
  cases hvv : validateInputs niche platform audience goal with
  | none =>
    exfalso
    unfold validateInputs at hvv
    split_ifs at hvv with h1 h2 h3 h4
    rcases h with h | h | h | h
    · exact h1 (by simp [h])
    · exact h2 (by simp [h])
    · exact h3 (by simp [h])
    · exact h4 (by simp [h])
  | some msg =>
    refine ⟨msg, ?_, ?_⟩
    · unfold runPipelineModel
      rw [hvv]
    · unfold validateInputs at hvv
      split_ifs at hvv <;> simp_all

/-- C10 witness: a whitespace-only niche aborts before any effect. -/
theorem pipeline_input_validation_witness :
    ∃ msg, runPipelineModel (strOf " ") (strOf "p") (strOf "a") (strOf "g")
        { ollamaAvailable := true, researchLog := [], researchData := [],
          subdomainsCall := Except.ok [], probe := fun _ => ⟨[], "LOW", -1, 0⟩,
          insightsCall1 := Except.ok [], insightsCall2 := Except.ok [],
          strategyCall1 := Except.ok [], strategyCall2 := Except.ok [],
          elapsed := 0, elapsedRepr := [] } =
        (Except.error ⟨EType.valueError, msg⟩, none, []) ∧
      msg ∈ [strOf "niche cannot be empty.", strOf "platform cannot be empty.",
        strOf "audience cannot be empty.", strOf "goal cannot be empty."] :=
  pipeline_input_validation_spec (strOf " ") (strOf "p") (strOf "a")
    (strOf "g") _ (Or.inl (by decide))
